import Mathlib

/-!
Verification development for the gas-network simulator core
(physics engine and leak detector).

The Python source computes with IEEE floating point; this development
models the arithmetic over the rational numbers.  The transcendental
primitives the source uses (pi, square root, base-10 logarithm, and
powers with non-integer exponents) are not rational operations, so the
model takes them as explicit function parameters bundled in a RealOps
structure; theorems assume only the properties of those primitives that
the proofs need (for example, that a square root of a nonnegative number
is nonnegative).  Division by zero follows the Lean convention x / 0 = 0.
Python dicts are modelled by insertion-ordered association lists, and
Python lists by Lean lists, so iteration order is preserved exactly.
-/

namespace GasSim

/-- Abstract numeric primitives computed with floating point in the
source: pi, square root (numpy sqrt), base-10 logarithm (numpy log10),
and real powers x ** y for non-integer y. -/
structure RealOps where
  pi : ℚ
  sqrt : ℚ → ℚ
  log10 : ℚ → ℚ
  rpow : ℚ → ℚ → ℚ

/-- A trivial instantiation of the abstract primitives, used to evaluate
the model on concrete inputs along control paths whose pressure results
do not depend on the primitives. -/
def zeroOps : RealOps := ⟨0, fun _ => 0, fun _ => 0, fun _ _ => 0⟩

/-- An instantiation whose log10 is the constant 1, used to evaluate the
Swamee-Jain expression to a nonzero value on concrete inputs. -/
def oneOps : RealOps := ⟨3, fun _ => 1, fun _ => 1, fun _ _ => 1⟩

/-- GasProperties.DENSITY from physics.py (kg per cubic meter). -/
def DENSITY : ℚ := 72 / 100

/-- GasProperties.DYNAMIC_VISCOSITY from physics.py (Pa times s). -/
def DYNAMIC_VISCOSITY : ℚ := 11 / 1000000

/-- Configuration fields of the PhysicsEngine class (physics.py). -/
structure PhysicsEngine where
  source_pressure : ℚ
  min_delivery_pressure : ℚ
  temperature : ℚ
  base_pressure : ℚ

/-- The default PhysicsEngine constructor arguments from physics.py. -/
def defaultEngine : PhysicsEngine :=
  { source_pressure := 400
    min_delivery_pressure := 17 / 10
    temperature := 28815 / 100
    base_pressure := 101325 / 1000 }

/-- PhysicsEngine._swamee_jain (physics.py lines 111-115): explicit
Swamee-Jain approximation of the Colebrook equation. -/
def swamee_jain (ops : RealOps) (reynolds relative_roughness : ℚ) : ℚ :=
  let term1 := relative_roughness / (37 / 10)
  let term2 := (574 / 100) / ops.rpow reynolds (9 / 10)
  (25 / 100) / (ops.log10 (term1 + term2)) ^ 2

/-- The laminar branch expression of calculate_friction_factor
(physics.py line 100): 64 / max(reynolds, 1). -/
def laminarFormula (reynolds : ℚ) : ℚ := 64 / max reynolds 1

/-- The transition-region branch expression of calculate_friction_factor
(physics.py lines 103-106): linear interpolation on t between the
laminar value at Re = 2300 and the Swamee-Jain value at Re = 4000. -/
def transitionFormula (ops : RealOps) (relative_roughness reynolds : ℚ) : ℚ :=
  let f_laminar : ℚ := 64 / 2300
  let f_turbulent := swamee_jain ops 4000 relative_roughness
  let t := (reynolds - 2300) / 1700
  f_laminar + t * (f_turbulent - f_laminar)

/-- PhysicsEngine.calculate_friction_factor (physics.py lines 87-109). -/
def calculate_friction_factor (ops : RealOps) (reynolds relative_roughness : ℚ) : ℚ :=
  if reynolds < 2300 then laminarFormula reynolds
  else if reynolds < 4000 then transitionFormula ops relative_roughness reynolds
  else swamee_jain ops reynolds relative_roughness

/-- PhysicsEngine.calculate_pressure_drop (physics.py lines 117-166).
Returns (pressure drop in kPa, velocity, Reynolds number, friction
factor).  Mirrors the source line by line: flow conversion, area,
velocity (0 when the area is not positive), Reynolds number floored at
1, friction factor, Darcy-Weisbach drop, compressibility correction,
and the final clamp to 95 percent of the inlet pressure. -/
def calculate_pressure_drop (ops : RealOps)
    (flow_rate length diameter roughness inlet_pressure : ℚ) : ℚ × ℚ × ℚ × ℚ :=
  let Q := flow_rate / 3600
  let A := ops.pi * (diameter / 2) ^ 2
  let velocity := if A > 0 then Q / A else 0
  let reynolds := (DENSITY * |velocity| * diameter) / DYNAMIC_VISCOSITY
  let reynolds := max reynolds 1
  let relative_roughness := roughness / diameter
  let f := calculate_friction_factor ops reynolds relative_roughness
  let delta_p := f * (length / diameter) * (DENSITY * velocity ^ 2 / 2)
  let delta_p_kpa := delta_p / 1000
  let delta_p_kpa :=
    if inlet_pressure > delta_p_kpa then
      let avg_pressure := inlet_pressure - delta_p_kpa / 2
      let correction := inlet_pressure / avg_pressure
      delta_p_kpa * ops.rpow correction (1 / 2)
    else delta_p_kpa
  let delta_p_kpa := min delta_p_kpa (inlet_pressure * (95 / 100))
  (delta_p_kpa, velocity, reynolds, f)

/-- GasNode dataclass from city_gen.py (lines 30-38). -/
structure GasNode where
  id : Int
  node_type : String
  x : ℚ
  y : ℚ
  base_demand : ℚ
  elevation : ℚ
  name : String
deriving DecidableEq

/-- GasPipe dataclass from city_gen.py (lines 45-54). -/
structure GasPipe where
  id : Int
  source_id : Int
  target_id : Int
  length : ℚ
  diameter : ℚ
  roughness : ℚ
  material : String
  year_installed : Int
deriving DecidableEq

/-- SimulationState dataclass from physics.py (lines 31-41).  The Python
dict fields are modelled as insertion-ordered association lists. -/
structure SimulationState where
  node_pressures : List (Int × ℚ)
  node_actual_demand : List (Int × ℚ)
  pipe_flow_rates : List (Int × ℚ)
  pipe_velocities : List (Int × ℚ)
  pipe_pressure_drops : List (Int × ℚ)
  pipe_reynolds : List (Int × ℚ)
  active_leaks : List (Int × ℚ)
  timestamp : ℚ
deriving DecidableEq

/-- Python dict assignment d[k] = v on an insertion-ordered association
list: replace the value in place when the key is present, else append. -/
def dictSet (d : List (Int × ℚ)) (k : Int) (v : ℚ) : List (Int × ℚ) :=
  match d with
  | [] => [(k, v)]
  | (k1, v1) :: rest => if k1 = k then (k, v) :: rest else (k1, v1) :: dictSet rest k v

/-- Python d.get(k, 0) (also used for d[k] at keys known to be present). -/
def dictGet (d : List (Int × ℚ)) (k : Int) : ℚ :=
  match d with
  | [] => 0
  | (k1, v1) :: rest => if k1 = k then v1 else dictGet rest k

/-- Python membership test k in d for a dict. -/
def dictMem (d : List (Int × ℚ)) (k : Int) : Bool :=
  match d with
  | [] => false
  | (k1, _) :: rest => k1 = k || dictMem rest k

/-- Association list keyed by ordered node pairs, for edge_pipe_map. -/
def epmSet (m : List ((Int × Int) × GasPipe)) (k : Int × Int) (p : GasPipe) :
    List ((Int × Int) × GasPipe) :=
  match m with
  | [] => [(k, p)]
  | (k1, p1) :: rest => if k1 = k then (k, p) :: rest else (k1, p1) :: epmSet rest k p

/-- Lookup in edge_pipe_map. -/
def epmFind? (m : List ((Int × Int) × GasPipe)) (k : Int × Int) : Option GasPipe :=
  match m with
  | [] => none
  | (k1, p1) :: rest => if k1 = k then some p1 else epmFind? rest k

/-- The edge_pipe_map built in simulate_network (physics.py lines
208-211): each pipe is registered under both orientations of its
endpoint pair. -/
def buildEdgePipeMap (pipes : List GasPipe) : List ((Int × Int) × GasPipe) :=
  pipes.foldl
    (fun m p => epmSet (epmSet m (p.source_id, p.target_id) p) (p.target_id, p.source_id) p) []

/-- Python max over a nonempty list of rationals (junk value 0 on []). -/
def listMax : List ℚ → ℚ
  | [] => 0
  | x :: xs => xs.foldl max x

/-- The body of the per-pipe flow loop of one solver iteration
(physics.py lines 233-269) for one pipe: choose the flow direction from
the endpoint pressures, estimate the flow magnitude, run the
pressure-drop calculator with the higher-pressure endpoint as inlet,
and record the per-pipe results.  Node pressures are only read here,
never written. -/
def pipeStep (ops : RealOps) (st : SimulationState) (pipe : GasPipe) : SimulationState :=
  let p1 := dictGet st.node_pressures pipe.source_id
  let p2 := dictGet st.node_pressures pipe.target_id
  let inlet_p := if p1 > p2 then p1 else p2
  let flow_direction : ℚ := if p1 > p2 then 1 else -1
  let delta_p := |p1 - p2|
  let flow_estimate :=
    if delta_p > 1 / 1000 then
      1000 * ops.rpow pipe.diameter (5 / 2) * ops.sqrt (delta_p / max pipe.length 1)
    else 0
  let r := calculate_pressure_drop ops flow_estimate pipe.length pipe.diameter
    pipe.roughness inlet_p
  { st with
    pipe_flow_rates := dictSet st.pipe_flow_rates pipe.id (flow_estimate * flow_direction)
    pipe_velocities := dictSet st.pipe_velocities pipe.id r.2.1
    pipe_pressure_drops := dictSet st.pipe_pressure_drops pipe.id r.1
    pipe_reynolds := dictSet st.pipe_reynolds pipe.id r.2.2.1 }

/-- The per-pipe flow pass of one solver iteration (physics.py lines
232-269). -/
def pipeLoop (ops : RealOps) (pipes : List GasPipe) (state : SimulationState) :
    SimulationState :=
  pipes.foldl (pipeStep ops) state

/-- The body of the per-node pressure-update loop (physics.py lines
272-321) for one node.  A source node is skipped.  Otherwise the source
gathers neighbor pressures through incident pipes, computes a net flow
that it never uses afterwards (dead code, reproduced as an unused
binding), and, when there is at least one connected neighbor, relaxes
the pressure toward the leak or demand estimate and floors it at a
tenth of the minimum delivery pressure. -/
def nodeStep (eng : PhysicsEngine) (adj : Int → List Int)
    (epm : List ((Int × Int) × GasPipe)) (leaks : List (Int × ℚ))
    (st : SimulationState) (node : GasNode) : SimulationState :=
  if node.node_type = "source" then st
  else
    let connected_pressures :=
      (adj node.id).filterMap
        (fun nb =>
          if (epmFind? epm (node.id, nb)).isSome then
            some (dictGet st.node_pressures nb)
          else none)
    let _net_flow :=
      (adj node.id).foldl
        (fun acc nb =>
          match epmFind? epm (node.id, nb) with
          | none => acc
          | some pipe =>
            if dictGet st.node_pressures nb > dictGet st.node_pressures node.id then
              acc + |dictGet st.pipe_flow_rates pipe.id|
            else
              acc - |dictGet st.pipe_flow_rates pipe.id|)
        (0 : ℚ)
    let demand := dictGet st.node_actual_demand node.id
    if connected_pressures = [] then st
    else
      let avg_neighbor_pressure :=
        connected_pressures.sum / (connected_pressures.length : ℚ)
      let max_neighbor_pressure := listMax connected_pressures
      let demand_factor := demand / max (demand + 10) 1
      let new_pressure :=
        if dictMem leaks node.id then
          let leak_severity := min (dictGet leaks node.id / 100) (9 / 10)
          max_neighbor_pressure * (1 - leak_severity) * (3 / 10)
        else
          avg_neighbor_pressure * (1 - demand_factor * (1 / 10))
      let relaxed := (3 / 10) * new_pressure + (1 - 3 / 10) * dictGet st.node_pressures node.id
      let floored := max relaxed (eng.min_delivery_pressure * (1 / 10))
      { st with node_pressures := dictSet st.node_pressures node.id floored }

/-- The per-node pressure-update pass of one solver iteration
(physics.py lines 271-321). -/
def nodeLoop (eng : PhysicsEngine) (adj : Int → List Int)
    (epm : List ((Int × Int) × GasPipe)) (leaks : List (Int × ℚ))
    (nodes : List GasNode) (state : SimulationState) : SimulationState :=
  nodes.foldl (nodeStep eng adj epm leaks) state

/-- The convergence measure of physics.py lines 323-327: the maximum
absolute pressure change over the node list. -/
def maxChange (nodes : List GasNode) (old new : List (Int × ℚ)) : ℚ :=
  listMax (nodes.map (fun n => |dictGet new n.id - dictGet old n.id|))

/-- The iterative solver loop of physics.py lines 229-330, with the
remaining iteration count as fuel: snapshot the pressures, run the pipe
pass and the node pass, and stop early when the maximum pressure change
falls below the convergence threshold. -/
def solveLoop (ops : RealOps) (eng : PhysicsEngine) (adj : Int → List Int)
    (epm : List ((Int × Int) × GasPipe)) (leaks : List (Int × ℚ))
    (nodes : List GasNode) (pipes : List GasPipe) (threshold : ℚ) :
    Nat → SimulationState → SimulationState
  | 0, state => state
  | fuel + 1, state =>
    let old := state.node_pressures
    let st1 := pipeLoop ops pipes state
    let st2 := nodeLoop eng adj epm leaks nodes st1
    if maxChange nodes old st2.node_pressures < threshold then st2
    else solveLoop ops eng adj epm leaks nodes pipes threshold fuel st2

/-- The body of simulate_network after its initialization (physics.py
lines 200-332): build the edge map, initialize pressures (source
pressure at sources, 80 percent of it elsewhere) and actual demands
(base demand times multiplier plus leak rate), then run the solver
loop. -/
def runSim (ops : RealOps) (eng : PhysicsEngine) (adj : Int → List Int)
    (nodes : List GasNode) (pipes : List GasPipe) (leaks : List (Int × ℚ))
    (demand_multiplier : ℚ) (max_iterations : Nat) (convergence_threshold : ℚ) :
    SimulationState :=
  let epm := buildEdgePipeMap pipes
  let pressures0 :=
    nodes.foldl
      (fun d n =>
        dictSet d n.id
          (if n.node_type = "source" then eng.source_pressure
           else eng.source_pressure * (8 / 10)))
      []
  let demands0 :=
    nodes.foldl
      (fun d n => dictSet d n.id (n.base_demand * demand_multiplier + dictGet leaks n.id))
      []
  let state0 : SimulationState :=
    { node_pressures := pressures0
      node_actual_demand := demands0
      pipe_flow_rates := []
      pipe_velocities := []
      pipe_pressure_drops := []
      pipe_reynolds := []
      active_leaks := leaks
      timestamp := 0 }
  solveLoop ops eng adj epm leaks nodes pipes convergence_threshold max_iterations state0

/-- PhysicsEngine.simulate_network (physics.py lines 168-332).  The
graph argument is modelled by its adjacency function.  With an empty
node list and at least one scheduled iteration the Python source raises
a ValueError (max over an empty sequence at line 324), modelled by the
value none; otherwise the source returns the computed state. -/
def simulate_network (ops : RealOps) (eng : PhysicsEngine) (adj : Int → List Int)
    (nodes : List GasNode) (pipes : List GasPipe) (leaks : List (Int × ℚ))
    (demand_multiplier : ℚ) (max_iterations : Nat) (convergence_threshold : ℚ) :
    Option SimulationState :=
  if nodes = [] ∧ 1 ≤ max_iterations then none
  else some (runSim ops eng adj nodes pipes leaks demand_multiplier max_iterations
    convergence_threshold)

/-! ### Leak detector model (leak_detector.py) -/

/-- Generic insertion-ordered association map assignment (Python dict
d[k] = v), polymorphic in key and value. -/
def assocSet {κ α : Type} [DecidableEq κ] : List (κ × α) → κ → α → List (κ × α)
  | [], k, v => [(k, v)]
  | (k1, v1) :: rest, k, v =>
    if k1 = k then (k, v) :: rest else (k1, v1) :: assocSet rest k v

/-- Generic association map lookup. -/
def assocFind? {κ α : Type} [DecidableEq κ] : List (κ × α) → κ → Option α
  | [], _ => none
  | (k1, v1) :: rest, k => if k1 = k then some v1 else assocFind? rest k

/-- Python d.get(k, dflt). -/
def assocGetD {κ α : Type} [DecidableEq κ] (d : List (κ × α)) (k : κ) (dflt : α) : α :=
  (assocFind? d k).getD dflt

/-- Python max over a nonempty list of naturals (junk value 0 on []). -/
def listMaxN : List Nat → Nat
  | [] => 0
  | x :: xs => xs.foldl max x

/-- Stable insertion of x after every element y with le y x. -/
def stableInsert {α : Type} (le : α → α → Bool) (x : α) : List α → List α
  | [] => [x]
  | y :: ys => if le y x then y :: stableInsert le x ys else x :: y :: ys

/-- Stable sort with respect to a boolean total preorder, modelling
Python list.sort (which is stable; a stable sort of a list under a total
preorder is unique, so insertion sort reproduces it exactly).  The
descending sorts with reverse=True are modelled by passing the flipped
comparator, which Python documents as equivalent while keeping
stability. -/
def stableSort {α : Type} (le : α → α → Bool) (l : List α) : List α :=
  l.foldl (fun acc x => stableInsert le x acc) []

/-- Configuration fields of the LeakDetector class (leak_detector.py
lines 54-64).  The field deficit_ratio_threshold keeps its source name;
the per-node ratio field is called deficit_frac here (deficit_ratio in
the source). -/
structure LeakDetector where
  pressure_deficit_threshold : ℚ
  deficit_ratio_threshold : ℚ
  min_confidence_threshold : ℚ
  source_pressure : ℚ

/-- The default LeakDetector constructor arguments. -/
def defaultDetector : LeakDetector :=
  { pressure_deficit_threshold := 50
    deficit_ratio_threshold := 3 / 10
    min_confidence_threshold := 1 / 2
    source_pressure := 400 }

/-- AnomalyScore dataclass (leak_detector.py lines 31-40).  The source
field deficit_ratio is named deficit_frac here. -/
structure AnomalyScore where
  node_id : Int
  pressure_deficit : ℚ
  deficit_frac : ℚ
  neighbor_avg_pressure : ℚ
  is_isolated_drop : Bool
  downstream_affected : Nat
  score : ℚ
deriving DecidableEq

/-- One frontier expansion round of breadth-first search from a source,
for nx.single_source_shortest_path_length: every not-yet-seen neighbor
of the frontier receives distance d and joins the next frontier. -/
def ssplGo (adj : Int → List Int) :
    Nat → List Int → List (Int × Nat) → Nat → List (Int × Nat)
  | 0, _, dist, _ => dist
  | fuel + 1, frontier, dist, d =>
    let step :=
      frontier.foldl
        (fun (st : List (Int × Nat) × List Int) n =>
          (adj n).foldl
            (fun st2 m =>
              if (assocFind? st2.1 m).isSome then st2
              else (st2.1 ++ [(m, d)], st2.2 ++ [m]))
            st)
        (dist, [])
    if step.2 = [] then step.1
    else ssplGo adj fuel step.2 step.1 (d + 1)

/-- nx.single_source_shortest_path_length: hop distances from src to all
reachable nodes.  The fuel bounds the number of BFS levels; callers pass
at least the number of nodes, which always suffices. -/
def single_source_shortest_path_length (adj : Int → List Int) (fuel : Nat) (src : Int) :
    List (Int × Nat) :=
  ssplGo adj fuel [src] [(src, 0)] 1

/-- LeakDetector._estimate_expected_pressures (leak_detector.py lines
164-198): minimum hop distance to any source, then a 5-percent-per-hop
pressure decay capped at 70 percent. -/
def estimate_expected_pressures (det : LeakDetector) (adj : Int → List Int) (fuel : Nat)
    (nodes : List GasNode) (source_ids : List Int) : List (Int × ℚ) :=
  let min_distances :=
    source_ids.foldl
      (fun md s =>
        (single_source_shortest_path_length adj fuel s).foldl
          (fun md2 p =>
            match assocFind? md2 p.1 with
            | none => assocSet md2 p.1 p.2
            | some old => assocSet md2 p.1 (min old p.2))
          md)
      []
  let max_distance :=
    if min_distances = [] then 1 else listMaxN (min_distances.map (fun p => p.2))
  nodes.foldl
    (fun e n =>
      if n.id ∈ source_ids then assocSet e n.id det.source_pressure
      else
        let dist := assocGetD min_distances n.id max_distance
        let drop_factor := (5 / 100 : ℚ) * (dist : ℚ)
        assocSet e n.id (det.source_pressure * (1 - min drop_factor (7 / 10))))
    []

/-- LeakDetector._calculate_anomaly_scores (leak_detector.py lines
200-293).  The numpy std is sqrt of the mean squared deviation and is
taken through the abstract sqrt primitive. -/
def calculate_anomaly_scores (ops : RealOps) (det : LeakDetector) (adj : Int → List Int)
    (nodes : List GasNode) (state : SimulationState)
    (expected_pressures : List (Int × ℚ)) (source_ids : List Int) : List AnomalyScore :=
  let all_pressures :=
    (nodes.filter (fun n => n.id ∉ source_ids)).map
      (fun n => dictGet state.node_pressures n.id)
  let mean_pressure :=
    if all_pressures = [] then det.source_pressure * (1 / 2)
    else all_pressures.sum / (all_pressures.length : ℚ)
  let std_pressure :=
    if all_pressures = [] then (50 : ℚ)
    else if all_pressures.length > 1 then
      ops.sqrt ((all_pressures.map (fun p => (p - mean_pressure) ^ 2)).sum /
        (all_pressures.length : ℚ))
    else 1
  nodes.foldl
    (fun scores node =>
      if node.id ∈ source_ids then scores
      else
        let actual := dictGet state.node_pressures node.id
        let expected := assocGetD expected_pressures node.id (det.source_pressure * (8 / 10))
        let deficit := expected - actual
        let dfrac := if expected > 0 then deficit / expected else 0
        let z_score := if std_pressure > 0 then (mean_pressure - actual) / std_pressure else 0
        let neighbor_pressures := (adj node.id).map (fun m => dictGet state.node_pressures m)
        let neighbor_avg :=
          if neighbor_pressures = [] then 0
          else neighbor_pressures.sum / (neighbor_pressures.length : ℚ)
        let neighbor_max := if neighbor_pressures = [] then 0 else listMax neighbor_pressures
        let pressure_gradient := neighbor_max - actual
        let is_isolated : Bool :=
          decide (neighbor_avg > actual * (3 / 2) ∧ dfrac > det.deficit_ratio_threshold)
        let is_pressure_sink : Bool :=
          decide (neighbor_max > actual * 2 ∧ actual < mean_pressure * (1 / 2))
        let downstream :=
          ((adj node.id).filter (fun m => dictGet state.node_pressures m < actual)).length
        let score :=
          (if deficit > det.pressure_deficit_threshold then (2 / 10 : ℚ) else 0) +
          (if dfrac > det.deficit_ratio_threshold then (2 / 10 : ℚ) else 0) +
          (if is_isolated then (2 / 10 : ℚ) else 0) +
          (if is_pressure_sink then (3 / 10 : ℚ) else 0) +
          (if z_score > 2 then (2 / 10 : ℚ) else 0) +
          (if pressure_gradient > 100 then (2 / 10 : ℚ) else 0) +
          (if downstream > 0 then (1 / 10) * ((min downstream 5 : Nat) : ℚ) / 5 else 0)
        scores ++
          [{ node_id := node.id
             pressure_deficit := deficit
             deficit_frac := dfrac
             neighbor_avg_pressure := neighbor_avg
             is_isolated_drop := is_isolated || is_pressure_sink
             downstream_affected := downstream
             score := min score 1 }])
    []

/-- LeakDetector._identify_candidates (leak_detector.py lines 295-325):
severe plus moderate anomalies, deduplicated by node id in order, then
stably sorted by (pressure deficit, score) descending. -/
def identify_candidates (det : LeakDetector) (anomaly_scores : List AnomalyScore) :
    List AnomalyScore :=
  let severe_candidates :=
    anomaly_scores.filter
      (fun a => a.pressure_deficit > det.source_pressure * (6 / 10) ∨ a.is_isolated_drop)
  let moderate_candidates :=
    anomaly_scores.filter
      (fun a => a.score ≥ det.min_confidence_threshold ∨
        a.deficit_frac > det.deficit_ratio_threshold * (3 / 2))
  let deduped :=
    ((severe_candidates ++ moderate_candidates).foldl
      (fun (st : List AnomalyScore × List Int) a =>
        if a.node_id ∈ st.2 then st else (st.1 ++ [a], st.2 ++ [a.node_id]))
      ([], [])).1
  stableSort
    (fun a b =>
      decide (b.pressure_deficit < a.pressure_deficit ∨
        (b.pressure_deficit = a.pressure_deficit ∧ b.score ≤ a.score)))
    deduped

/-- The breadth-first traversal inside LeakDetector._cluster_anomalies
(leak_detector.py lines 352-365): pop the queue head; skip it when
already visited; mark it visited; when it is a candidate, collect it
into the cluster and enqueue its unvisited neighbors.  Note the source
enqueues neighbors only from candidate nodes.  Returns the cluster and
the updated visited set; the fuel bounds the number of pops. -/
def clusterBFS (adj : Int → List Int) (candidate_ids : List Int) :
    Nat → List Int → List Int → List Int → List Int × List Int
  | 0, _, visited, cluster => (cluster, visited)
  | _ + 1, [], visited, cluster => (cluster, visited)
  | fuel + 1, node :: queue, visited, cluster =>
    if node ∈ visited then clusterBFS adj candidate_ids fuel queue visited cluster
    else
      let visited1 := node :: visited
      if node ∈ candidate_ids then
        clusterBFS adj candidate_ids fuel
          (queue ++ (adj node).filter (fun nb => nb ∉ visited1))
          visited1 (cluster ++ [node])
      else clusterBFS adj candidate_ids fuel queue visited1 cluster

/-- LeakDetector._cluster_anomalies (leak_detector.py lines 327-370).
The visited set is shared across the outer loop over candidates.  The
fuel passed to each traversal exceeds one plus the total number of
possible enqueues (each candidate expands at most once, adding at most
its degree), so the traversal always drains its queue.  The node_dict
parameter is unused by the source body and kept for signature
fidelity. -/
def cluster_anomalies (adj : Int → List Int) (candidates : List AnomalyScore)
    (node_dict : List (Int × GasNode)) : List (List Int) :=
  if candidates = [] then []
  else
    let candidate_ids := candidates.map (fun c => c.node_id)
    let fuel := candidate_ids.foldl (fun a i => a + ((adj i).length + 1)) 0 + 1
    (candidates.foldl
      (fun (st : List (List Int) × List Int) c =>
        if c.node_id ∈ st.2 then st
        else
          let r := clusterBFS adj candidate_ids fuel [c.node_id] st.2 []
          (if r.1 = [] then st.1 else st.1 ++ [r.1], r.2))
      ([], [])).1

/-- The per-leak record assembled by _trace_leak_sources, a Python dict
with fixed keys (leak_detector.py lines 418-425). -/
structure LeakSource where
  node_id : Int
  cluster_size : Nat
  severity : String
  pressure_deficit : ℚ
  affected_downstream : Nat
  pressure_gradient : ℚ
deriving DecidableEq

/-- Comparison of optional pressures where a missing entry means
float inf, as in state.node_pressures.get(x, float(inf)). -/
def infLe : Option ℚ → Option ℚ → Bool
  | some a, some b => a ≤ b
  | some _, none => true
  | none, some _ => false
  | none, none => true

/-- Strict version of infLe for the min-by selection. -/
def infLt : Option ℚ → Option ℚ → Bool
  | some a, some b => a < b
  | some _, none => true
  | _, _ => false

/-- LeakDetector._trace_leak_sources (leak_detector.py lines 372-432):
per nonempty cluster pick the member with the lowest pressure (Python
min returns the first minimizer), compute the gradient against its
highest-pressure neighbor, bucket severity by its absolute pressure,
and finally sort the records by origin pressure ascending. -/
def trace_leak_sources (det : LeakDetector) (adj : Int → List Int)
    (clusters : List (List Int)) (state : SimulationState) : List LeakSource :=
  let leak_sources :=
    clusters.foldl
      (fun acc cluster =>
        match cluster with
        | [] => acc
        | c0 :: rest =>
          let best_candidate :=
            rest.foldl
              (fun b x =>
                if infLt (assocFind? state.node_pressures x)
                    (assocFind? state.node_pressures b) then x else b)
              c0
          let best_pressure := dictGet state.node_pressures best_candidate
          let neighbor_pressures :=
            (adj best_candidate).map (fun m => dictGet state.node_pressures m)
          let max_neighbor :=
            if neighbor_pressures = [] then best_pressure else listMax neighbor_pressures
          let gradient := max_neighbor - best_pressure
          let node_pressure := best_pressure
          let severity :=
            if node_pressure < 10 then "critical"
            else if node_pressure < 50 then "severe"
            else if node_pressure < 150 then "moderate"
            else "minor"
          acc ++
            [{ node_id := best_candidate
               cluster_size := cluster.length
               severity := severity
               pressure_deficit := det.source_pressure * (8 / 10) - node_pressure
               affected_downstream := cluster.length - 1
               pressure_gradient := gradient }])
      []
  stableSort
    (fun a b =>
      infLe (assocFind? state.node_pressures a.node_id)
        (assocFind? state.node_pressures b.node_id))
    leak_sources

/-- LeakDetector._calculate_confidence (leak_detector.py lines
434-468). -/
def calculate_confidence (leak_sources : List LeakSource)
    (anomaly_scores : List AnomalyScore) : List (Int × ℚ) :=
  let score_dict := anomaly_scores.foldl (fun d a => assocSet d a.node_id a) []
  leak_sources.foldl
    (fun conf leak =>
      let anomaly := assocFind? score_dict leak.node_id
      let base_confidence :=
        match anomaly with
        | some a => a.score
        | none => (1 / 2 : ℚ)
      let base_confidence :=
        match anomaly with
        | some a => if a.is_isolated_drop then base_confidence + 2 / 10 else base_confidence
        | none => base_confidence
      let cluster_boost := min ((leak.cluster_size : ℚ) * (5 / 100)) (2 / 10)
      let base_confidence := base_confidence + cluster_boost
      let base_confidence :=
        if leak.severity = "critical" ∨ leak.severity = "severe" then base_confidence + 1 / 10
        else base_confidence
      assocSet conf leak.node_id (min base_confidence 1))
    []

/-- LeakDetector._find_affected_nodes (leak_detector.py lines 470-489):
the set of non-source nodes whose pressure is below half the source
pressure.  The source materializes a Python set whose iteration order
is unspecified; the model lists the members in first-occurrence order
of node_pressures, which fixes the same set. -/
def find_affected_nodes (det : LeakDetector) (state : SimulationState)
    (source_ids : List Int) : List Int :=
  let threshold := det.source_pressure * (1 / 2)
  state.node_pressures.foldl
    (fun acc p =>
      if p.1 ∈ source_ids then acc
      else if p.2 < threshold ∧ p.1 ∉ acc then acc ++ [p.1]
      else acc)
    []

/-- The templated recommendation strings of _generate_recommendations,
modelled as tagged messages carrying the interpolated values. -/
inductive Recommendation where
  | noSignificantLeaks
  | criticalAlert (count : Nat)
  | dispatchCrew (node_name : String) (node_id : Int)
  | severeWarning (count : Nat)
  | lowPressureNotice (count : Nat)
  | systematicInspection
deriving DecidableEq

/-- LeakDetector._generate_recommendations (leak_detector.py lines
491-538): an empty leak list yields exactly the single
no-significant-leaks message; otherwise the alerts accumulate in source
order. -/
def generate_recommendations (leak_sources : List LeakSource) (affected_nodes : List Int)
    (node_dict : List (Int × GasNode)) : List Recommendation :=
  if leak_sources = [] then [Recommendation.noSignificantLeaks]
  else
    let critical_leaks := leak_sources.filter (fun l => l.severity = "critical")
    let severe_leaks := leak_sources.filter (fun l => l.severity = "severe")
    let recs : List Recommendation := []
    let recs :=
      if critical_leaks ≠ [] then
        (recs ++ [Recommendation.criticalAlert critical_leaks.length]) ++
          critical_leaks.map
            (fun l =>
              Recommendation.dispatchCrew
                (match assocFind? node_dict l.node_id with
                 | some n => n.name
                 | none => "")
                l.node_id)
      else recs
    let recs :=
      if severe_leaks ≠ [] then recs ++ [Recommendation.severeWarning severe_leaks.length]
      else recs
    let recs :=
      if affected_nodes ≠ [] then
        recs ++ [Recommendation.lowPressureNotice affected_nodes.length]
      else recs
    let recs :=
      if leak_sources.length > 3 then recs ++ [Recommendation.systematicInspection]
      else recs
    recs

/-- One entry of the detected_leaks list assembled by analyze_network
(leak_detector.py lines 131-143). -/
structure DetectedLeak where
  node_id : Int
  node_name : String
  node_type : String
  location : ℚ × ℚ
  confidence : ℚ
  estimated_severity : String
  pressure_deficit : ℚ
  affected_downstream : Nat
deriving DecidableEq

/-- The analysis_details dict of LeakDetectionResult (leak_detector.py
lines 152-160). -/
structure AnalysisDetails where
  total_anomalies : Nat
  clusters_found : Nat
  anomaly_scores : List (Int × ℚ)
  pressure_deficits : List (Int × ℚ)
deriving DecidableEq

/-- LeakDetectionResult dataclass (leak_detector.py lines 21-28). -/
structure LeakDetectionResult where
  detected_leaks : List DetectedLeak
  affected_nodes : List Int
  confidence_scores : List (Int × ℚ)
  analysis_details : AnalysisDetails
  recommendations : List Recommendation
deriving DecidableEq

/-- The source-id set computed at the top of analyze_network
(leak_detector.py line 89), in node-list order. -/
def analysisSourceIds (nodes : List GasNode) : List Int :=
  (nodes.filter (fun n => n.node_type = "source")).map (fun n => n.id)

/-- Step 1 of analyze_network (leak_detector.py lines 91-97): baseline
pressures when given, else the topological estimate. -/
def analysisExpected (det : LeakDetector) (adj : Int → List Int) (nodes : List GasNode)
    (baseline_state : Option SimulationState) : List (Int × ℚ) :=
  match baseline_state with
  | some b => b.node_pressures
  | none =>
    estimate_expected_pressures det adj (nodes.length + 1) nodes (analysisSourceIds nodes)

/-- Step 2 of analyze_network: the anomaly scores over the expected
pressures. -/
def analysisScores (ops : RealOps) (det : LeakDetector) (adj : Int → List Int)
    (nodes : List GasNode) (simulation_state : SimulationState)
    (baseline_state : Option SimulationState) : List AnomalyScore :=
  calculate_anomaly_scores ops det adj nodes simulation_state
    (analysisExpected det adj nodes baseline_state) (analysisSourceIds nodes)

/-- Step 3 of analyze_network: the candidate list. -/
def analysisCandidates (ops : RealOps) (det : LeakDetector) (adj : Int → List Int)
    (nodes : List GasNode) (simulation_state : SimulationState)
    (baseline_state : Option SimulationState) : List AnomalyScore :=
  identify_candidates det (analysisScores ops det adj nodes simulation_state baseline_state)

/-- LeakDetector.analyze_network (leak_detector.py lines 66-162): the
eight-step pipeline producing the LeakDetectionResult. -/
def analyze_network (ops : RealOps) (det : LeakDetector) (adj : Int → List Int)
    (nodes : List GasNode) (pipes : List GasPipe) (simulation_state : SimulationState)
    (baseline_state : Option SimulationState) : LeakDetectionResult :=
  let node_dict := nodes.foldl (fun d n => assocSet d n.id n) []
  let source_ids := analysisSourceIds nodes
  let anomaly_scores := analysisScores ops det adj nodes simulation_state baseline_state
  let candidates := analysisCandidates ops det adj nodes simulation_state baseline_state
  let leak_clusters := cluster_anomalies adj candidates node_dict
  let refined_leaks := trace_leak_sources det adj leak_clusters simulation_state
  let confidence_scores := calculate_confidence refined_leaks anomaly_scores
  let affected_nodes := find_affected_nodes det simulation_state source_ids
  let recommendations := generate_recommendations refined_leaks affected_nodes node_dict
  let detected_leaks :=
    refined_leaks.foldl
      (fun acc leak =>
        let n := assocFind? node_dict leak.node_id
        acc ++
          [{ node_id := leak.node_id
             node_name := match n with | some nd => nd.name | none => ""
             node_type := match n with | some nd => nd.node_type | none => ""
             location := match n with | some nd => (nd.x, nd.y) | none => ((0 : ℚ), (0 : ℚ))
             confidence := assocGetD confidence_scores leak.node_id 0
             estimated_severity := leak.severity
             pressure_deficit := leak.pressure_deficit
             affected_downstream := leak.affected_downstream }])
      []
  let detected_leaks :=
    stableSort (fun a b => decide (b.confidence ≤ a.confidence)) detected_leaks
  { detected_leaks := detected_leaks
    affected_nodes := affected_nodes
    confidence_scores := confidence_scores
    analysis_details :=
      { total_anomalies := candidates.length
        clusters_found := leak_clusters.length
        anomaly_scores := anomaly_scores.foldl (fun d a => assocSet d a.node_id a.score) []
        pressure_deficits :=
          (anomaly_scores.filter (fun a => a.pressure_deficit > 0)).foldl
            (fun d a => assocSet d a.node_id a.pressure_deficit) [] }
    recommendations := recommendations }

/-- Reachability closure used to phrase graph connectivity in claims:
repeatedly add all neighbors of already-reached nodes, fuel rounds. -/
def reachableFrom (adj : Int → List Int) : Nat → List Int → List Int
  | 0, acc => acc
  | fuel + 1, acc =>
    let acc1 :=
      acc.foldl
        (fun l n => (adj n).foldl (fun l2 m => if m ∈ l2 then l2 else l2 ++ [m]) l)
        acc
    reachableFrom adj fuel acc1

/-- Two nodes lie in the same connected component when b is reachable
from a within fuel expansion rounds. -/
def inSameComponent (adj : Int → List Int) (fuel : Nat) (a b : Int) : Bool :=
  b ∈ reachableFrom adj fuel [a]

/-! ### Well-formedness and concrete instances used in the claims -/

/-- Well-formed topology in the sense of the specification: at least one
node, unique node ids, pipes with positive dimensions whose endpoints
are nodes, and adjacency staying inside the node set. -/
def WellFormed (adj : Int → List Int) (nodes : List GasNode) (pipes : List GasPipe) : Prop :=
  nodes ≠ [] ∧
  (nodes.map GasNode.id).Nodup ∧
  (∀ p ∈ pipes, 0 < p.diameter ∧ 0 < p.length ∧ 0 < p.roughness ∧
    p.source_id ∈ nodes.map GasNode.id ∧ p.target_id ∈ nodes.map GasNode.id) ∧
  (∀ n ∈ nodes, ∀ m ∈ (adj n.id), m ∈ nodes.map GasNode.id)

/-- The source node of the two-node topology of the specification
(source id 0, pressure held at the configured source pressure). -/
def twoNodeSource : GasNode :=
  { id := 0, node_type := "source", x := 0, y := 0, base_demand := 0, elevation := 0
    name := "Source" }

/-- The consumer node of the two-node topology, with parametric base
demand. -/
def twoNodeConsumer (dem : ℚ) : GasNode :=
  { id := 1, node_type := "residential", x := 0, y := 0, base_demand := dem, elevation := 0
    name := "Consumer" }

/-- The single pipe of the two-node topology (length 500 m, diameter
0.15 m, roughness 0.000045 m). -/
def twoNodePipe : GasPipe :=
  { id := 0, source_id := 0, target_id := 1, length := 500, diameter := 3 / 20
    roughness := 9 / 200000, material := "steel", year_installed := 2000 }

/-- Adjacency of the two-node topology. -/
def twoNodeAdj : Int → List Int :=
  fun i => if i = 0 then [1] else if i = 1 then [0] else []

/-- Hub topology used to refute leak monotonicity: a source (id 0), a
hub (id 1) with base demand 1000, and 15 leaves (ids 2 to 16) with base
demand 1000, all attached to the hub. -/
def hubNodes : List GasNode :=
  { id := 0, node_type := "source", x := 0, y := 0, base_demand := 0, elevation := 0
    name := "Source" } ::
  { id := 1, node_type := "commercial", x := 0, y := 0, base_demand := 1000, elevation := 0
    name := "Hub" } ::
  (List.range 15).map
    (fun i =>
      { id := (i : Int) + 2, node_type := "residential", x := 0, y := 0, base_demand := 1000
        elevation := 0, name := "Leaf" })

/-- Pipes of the hub topology: source-hub plus hub-leaf pipes. -/
def hubPipes : List GasPipe :=
  { id := 0, source_id := 0, target_id := 1, length := 500, diameter := 3 / 20
    roughness := 9 / 200000, material := "steel", year_installed := 2000 } ::
  (List.range 15).map
    (fun i =>
      { id := (i : Int) + 1, source_id := 1, target_id := (i : Int) + 2, length := 500
        diameter := 3 / 20, roughness := 9 / 200000, material := "steel"
        year_installed := 2000 })

/-- Adjacency of the hub topology. -/
def hubAdj : Int → List Int :=
  fun i =>
    if i = 0 then [1]
    else if i = 1 then 0 :: (List.range 15).map (fun j => (j : Int) + 2)
    else if 2 ≤ i ∧ i ≤ 16 then [1] else []

/-- A topology with one source node and no pipes at all. -/
def singleSourceNodes : List GasNode := [twoNodeSource]

/-- The empty adjacency function. -/
def emptyAdj : Int → List Int := fun _ => []

/-- A healthy simulation state for the two-node topology: both nodes at
full source pressure, so the detector finds no anomaly candidates. -/
def healthyState : SimulationState :=
  { node_pressures := [(0, 400), (1, 400)]
    node_actual_demand := [(0, 0), (1, 5)]
    pipe_flow_rates := [(0, 0)]
    pipe_velocities := [(0, 0)]
    pipe_pressure_drops := [(0, 0)]
    pipe_reynolds := [(0, 1)]
    active_leaks := []
    timestamp := 0 }

/-- Path adjacency 0 - 1 - 2 used to refute the component clustering
claim. -/
def pathAdj : Int → List Int :=
  fun i => if i = 0 then [1] else if i = 1 then [0, 2] else if i = 2 then [1] else []

/-- An anomaly-score record for node 0 (only the node id matters for
clustering). -/
def pathCand0 : AnomalyScore :=
  { node_id := 0, pressure_deficit := 0, deficit_frac := 0, neighbor_avg_pressure := 0
    is_isolated_drop := false, downstream_affected := 0, score := 0 }

/-- An anomaly-score record for node 2. -/
def pathCand2 : AnomalyScore :=
  { node_id := 2, pressure_deficit := 0, deficit_frac := 0, neighbor_avg_pressure := 0
    is_isolated_drop := false, downstream_affected := 0, score := 0 }

/-! ### Lemmas about the friction and pressure-drop calculator -/

/-- The Swamee-Jain expression is nonnegative: it is a nonnegative
constant divided by a square. -/
theorem swamee_jain_nonneg (ops : RealOps) (reynolds relative_roughness : ℚ) :
    0 ≤ swamee_jain ops reynolds relative_roughness := by
  unfold swamee_jain
  exact div_nonneg (by norm_num) (sq_nonneg _)

/-- The friction factor is nonnegative on every input and every
instantiation of the abstract primitives. -/
theorem calculate_friction_factor_nonneg (ops : RealOps) (reynolds relative_roughness : ℚ) :
    0 ≤ calculate_friction_factor ops reynolds relative_roughness := by
  unfold calculate_friction_factor
  split
  · unfold laminarFormula
    exact div_nonneg (by norm_num)
      (le_trans zero_le_one (le_max_right reynolds 1))
  · split
    · rename_i h1 h2
      unfold transitionFormula
      have hlam : (0 : ℚ) ≤ 64 / 2300 := by norm_num
      have hturb := swamee_jain_nonneg ops 4000 relative_roughness
      have ht0 : (0 : ℚ) ≤ (reynolds - 2300) / 1700 := by
        have : (2300 : ℚ) ≤ reynolds := le_of_not_lt h1
        have : (0 : ℚ) ≤ reynolds - 2300 := by linarith
        positivity
      have ht1 : (reynolds - 2300) / 1700 ≤ 1 := by
        rw [div_le_one (by norm_num : (0:ℚ) < 1700)]
        linarith
      nlinarith [hturb, ht0, ht1, hlam]
    · exact swamee_jain_nonneg ops reynolds relative_roughness

/-- Structure of the pressure-drop result: the raw Darcy-Weisbach value
before the final clamp is nonnegative whenever the pipe diameter and
length are positive, the inlet pressure is nonnegative, and the
square-root primitive is nonnegative on nonnegative arguments. -/
theorem calculate_pressure_drop_bounds (ops : RealOps)
    (flow_rate length diameter roughness inlet_pressure : ℚ)
    (hd : 0 < diameter) (hL : 0 < length) (hin : 0 ≤ inlet_pressure)
    (hrpow : ∀ x : ℚ, 0 ≤ x → 0 ≤ ops.rpow x (1 / 2)) :
    0 ≤ (calculate_pressure_drop ops flow_rate length diameter roughness inlet_pressure).1 ∧
    (calculate_pressure_drop ops flow_rate length diameter roughness inlet_pressure).1 ≤
      inlet_pressure * (95 / 100) := by
  unfold calculate_pressure_drop
  simp only []
  set v : ℚ :=
    (if ops.pi * (diameter / 2) ^ 2 > 0 then
      flow_rate / 3600 / (ops.pi * (diameter / 2) ^ 2) else 0) with hv
  set f : ℚ := calculate_friction_factor ops
    (max (DENSITY * |v| * diameter / DYNAMIC_VISCOSITY) 1) (roughness / diameter) with hf
  have hf0 : 0 ≤ f := calculate_friction_factor_nonneg ops _ _
  set d0 : ℚ := f * (length / diameter) * (DENSITY * v ^ 2 / 2) / 1000 with hd0
  have hd00 : 0 ≤ d0 := by
    have h1 : 0 ≤ length / diameter := le_of_lt (div_pos hL hd)
    have h2 : 0 ≤ DENSITY * v ^ 2 / 2 := by
      have := sq_nonneg v
      unfold DENSITY
      positivity
    positivity
  set d1 : ℚ :=
    (if inlet_pressure > d0 then
      d0 * ops.rpow (inlet_pressure / (inlet_pressure - d0 / 2)) (1 / 2)
     else d0) with hd1
  have hd10 : 0 ≤ d1 := by
    rw [hd1]
    split
    · rename_i hgt
      have havg : 0 ≤ inlet_pressure - d0 / 2 := by linarith
      exact mul_nonneg hd00 (hrpow _ (div_nonneg hin havg))
    · exact hd00
  constructor
  · exact le_min hd10 (by positivity)
  · exact min_le_right _ _

/-- Evaluation of the calculator at zero flow: velocity 0, Reynolds
floored to 1, laminar friction factor 64, zero pressure drop. -/
theorem calculate_pressure_drop_zero_flow (ops : RealOps)
    (length diameter roughness inlet_pressure : ℚ) (hin : 0 ≤ inlet_pressure) :
    calculate_pressure_drop ops 0 length diameter roughness inlet_pressure = (0, 0, 1, 64) := by
  unfold calculate_pressure_drop
  have hv : (if ops.pi * (diameter / 2) ^ 2 > 0 then
      (0 : ℚ) / 3600 / (ops.pi * (diameter / 2) ^ 2) else 0) = 0 := by
    split <;> simp
  simp only [hv]
  have hre : max (DENSITY * |(0 : ℚ)| * diameter / DYNAMIC_VISCOSITY) 1 = 1 := by
    simp [DENSITY, DYNAMIC_VISCOSITY]
  rw [hre]
  have hf : calculate_friction_factor ops 1 (roughness / diameter) = 64 := by
    unfold calculate_friction_factor laminarFormula
    norm_num
  rw [hf]
  have hdp : (64 : ℚ) * (length / diameter) * (DENSITY * 0 ^ 2 / 2) / 1000 = 0 := by
    ring
  rw [hdp]
  have hcorr : (if inlet_pressure > (0 : ℚ) then
      (0 : ℚ) * ops.rpow (inlet_pressure / (inlet_pressure - 0 / 2)) (1 / 2) else 0) = 0 := by
    split <;> simp
  rw [hcorr]
  have hmin : min (0 : ℚ) (inlet_pressure * (95 / 100)) = 0 :=
    min_eq_left (by positivity)
  rw [hmin]

/-- Continuity of the friction-factor regimes at both boundaries: the
dispatch selects the transition formula at Re = 2300 and the turbulent
formula at Re = 4000, the transition formula agrees exactly with the
laminar value at 2300 and with the Swamee-Jain value at 4000, so the
relative difference is zero at both ends. -/
theorem friction_continuity_eq (ops : RealOps) (rr : ℚ) :
    calculate_friction_factor ops 2300 rr = transitionFormula ops rr 2300 ∧
    calculate_friction_factor ops 4000 rr = swamee_jain ops 4000 rr ∧
    transitionFormula ops rr 2300 = laminarFormula 2300 ∧
    transitionFormula ops rr 4000 = swamee_jain ops 4000 rr := by
  refine ⟨?_, ?_, ?_, ?_⟩
  · unfold calculate_friction_factor
    norm_num
  · unfold calculate_friction_factor
    norm_num
  · unfold transitionFormula laminarFormula
    norm_num
  · unfold transitionFormula
    have h17 : ((4000 : ℚ) - 2300) / 1700 = 1 := by norm_num
    rw [h17]
    ring

/-! ### Dictionary lemmas -/

theorem dictGet_set_self (d : List (Int × ℚ)) (k : Int) (v : ℚ) :
    dictGet (dictSet d k v) k = v := by
  induction d with
  | nil => simp [dictSet, dictGet]
  | cons hd tl ih =>
    obtain ⟨k1, v1⟩ := hd
    unfold dictSet
    by_cases h : k1 = k
    · simp [h, dictGet]
    · simp only [if_neg h]
      unfold dictGet
      simp [h, ih]

theorem dictGet_set_ne (d : List (Int × ℚ)) (k j : Int) (v : ℚ) (h : k ≠ j) :
    dictGet (dictSet d k v) j = dictGet d j := by
  induction d with
  | nil => simp [dictSet, dictGet, h]
  | cons hd tl ih =>
    obtain ⟨k1, v1⟩ := hd
    unfold dictSet
    by_cases h1 : k1 = k
    · subst h1
      simp [dictGet, h]
    · simp only [if_neg h1]
      unfold dictGet
      by_cases h2 : k1 = j <;> simp [h2, ih]

/-- Rewriting the neighbor-pressure collection of nodeLoop: a filterMap
of guarded somes is a map over the filtered list. -/
theorem filterMap_guard_eq_map_filter (c : Int → Bool) (f : Int → ℚ) (l : List Int) :
    (l.filterMap fun nb => if c nb then some (f nb) else none) =
      (l.filter c).map f := by
  induction l with
  | nil => rfl
  | cons hd tl ih =>
    by_cases h : c hd <;> simp [List.filterMap_cons, List.filter_cons, h, ih]

/-! ### Preservation lemmas for the solver loops -/

theorem pipeStep_node_pressures (ops : RealOps) (st : SimulationState) (p : GasPipe) :
    (pipeStep ops st p).node_pressures = st.node_pressures := rfl

theorem pipeLoop_node_pressures (ops : RealOps) (pipes : List GasPipe)
    (st : SimulationState) :
    (pipeLoop ops pipes st).node_pressures = st.node_pressures := by
  induction pipes generalizing st with
  | nil => rfl
  | cons p ps ih =>
    unfold pipeLoop at ih ⊢
    rw [List.foldl_cons, ih, pipeStep_node_pressures]

theorem pipeLoop_node_actual_demand (ops : RealOps) (pipes : List GasPipe)
    (st : SimulationState) :
    (pipeLoop ops pipes st).node_actual_demand = st.node_actual_demand := by
  induction pipes generalizing st with
  | nil => rfl
  | cons p ps ih =>
    unfold pipeLoop at ih ⊢
    rw [List.foldl_cons, ih]
    rfl

theorem nodeStep_node_actual_demand (eng : PhysicsEngine) (adj : Int → List Int)
    (epm : List ((Int × Int) × GasPipe)) (leaks : List (Int × ℚ))
    (st : SimulationState) (n : GasNode) :
    (nodeStep eng adj epm leaks st n).node_actual_demand = st.node_actual_demand := by
  unfold nodeStep
  dsimp only
  split
  · rfl
  · split <;> rfl

theorem nodeLoop_node_actual_demand (eng : PhysicsEngine) (adj : Int → List Int)
    (epm : List ((Int × Int) × GasPipe)) (leaks : List (Int × ℚ))
    (nodes : List GasNode) (st : SimulationState) :
    (nodeLoop eng adj epm leaks nodes st).node_actual_demand = st.node_actual_demand := by
  induction nodes generalizing st with
  | nil => rfl
  | cons n ns ih =>
    unfold nodeLoop at ih ⊢
    rw [List.foldl_cons, ih, nodeStep_node_actual_demand]

/-- The connected-pressure list of nodeStep is empty exactly when no
adjacent node passes the edge-map membership test: its emptiness does
not depend on the state. -/
theorem connected_pressures_empty_iff (adj : Int → List Int)
    (epm : List ((Int × Int) × GasPipe)) (st : SimulationState) (i : Int) :
    ((adj i).filterMap
        (fun nb =>
          if (epmFind? epm (i, nb)).isSome then some (dictGet st.node_pressures nb)
          else none) = []) ↔
      (adj i).filter (fun nb => (epmFind? epm (i, nb)).isSome) = [] := by
  rw [filterMap_guard_eq_map_filter (fun nb => (epmFind? epm (i, nb)).isSome)
    (fun nb => dictGet st.node_pressures nb) (adj i)]
  simp

/-- A single node update leaves the pressure at id j unchanged when the
updated node is a source, has a different id, or has no connected
neighbor through the edge map. -/
theorem nodeStep_get_preserved (eng : PhysicsEngine) (adj : Int → List Int)
    (epm : List ((Int × Int) × GasPipe)) (leaks : List (Int × ℚ))
    (st : SimulationState) (n : GasNode) (j : Int)
    (h : n.node_type = "source" ∨ n.id ≠ j ∨
      (adj n.id).filter (fun nb => (epmFind? epm (n.id, nb)).isSome) = []) :
    dictGet (nodeStep eng adj epm leaks st n).node_pressures j =
      dictGet st.node_pressures j := by
  unfold nodeStep
  dsimp only
  rcases h with h | h | h
  · rw [if_pos h]
  · split
    · rfl
    · split
      · rfl
      · exact dictGet_set_ne _ _ _ _ h
  · split
    · rfl
    · split
      · rfl
      · rename_i hne
        exact absurd ((connected_pressures_empty_iff adj epm st n.id).mpr h) hne

/-- The per-node pass leaves the pressure at id j unchanged when every
node of the list is a source, has a different id, or has no connected
neighbor. -/
theorem nodeLoop_get_preserved (eng : PhysicsEngine) (adj : Int → List Int)
    (epm : List ((Int × Int) × GasPipe)) (leaks : List (Int × ℚ)) (j : Int) :
    ∀ (nodes : List GasNode) (st : SimulationState),
      (∀ n ∈ nodes, n.node_type = "source" ∨ n.id ≠ j ∨
        (adj n.id).filter (fun nb => (epmFind? epm (n.id, nb)).isSome) = []) →
      dictGet (nodeLoop eng adj epm leaks nodes st).node_pressures j =
        dictGet st.node_pressures j := by
  intro nodes
  induction nodes with
  | nil => intro st _; rfl
  | cons n ns ih =>
    intro st h
    unfold nodeLoop at ih ⊢
    rw [List.foldl_cons, ih _ (fun m hm => h m (List.mem_cons_of_mem n hm)),
      nodeStep_get_preserved eng adj epm leaks st n j (h n (List.mem_cons_self n ns))]

/-- The solver loop leaves the pressure at id j unchanged when no node
of the list can write it. -/
theorem solveLoop_get_preserved (ops : RealOps) (eng : PhysicsEngine)
    (adj : Int → List Int) (epm : List ((Int × Int) × GasPipe))
    (leaks : List (Int × ℚ)) (nodes : List GasNode) (pipes : List GasPipe)
    (threshold : ℚ) (j : Int)
    (h : ∀ n ∈ nodes, n.node_type = "source" ∨ n.id ≠ j ∨
      (adj n.id).filter (fun nb => (epmFind? epm (n.id, nb)).isSome) = []) :
    ∀ (fuel : Nat) (st : SimulationState),
      dictGet (solveLoop ops eng adj epm leaks nodes pipes threshold fuel st).node_pressures j
        = dictGet st.node_pressures j := by
  intro fuel
  induction fuel with
  | zero => intro st; rfl
  | succ f ih =>
    intro st
    unfold solveLoop
    dsimp only
    have hstep :
        dictGet (nodeLoop eng adj epm leaks nodes (pipeLoop ops pipes st)).node_pressures j =
          dictGet st.node_pressures j := by
      rw [nodeLoop_get_preserved eng adj epm leaks j nodes _ h, pipeLoop_node_pressures]
    split
    · exact hstep
    · rw [ih _, hstep]

/-! ### Initialization lemmas -/

theorem foldl_dictSet_get_of_ne (val : GasNode → ℚ) :
    ∀ (ns : List GasNode) (d : List (Int × ℚ)) (j : Int), (∀ n ∈ ns, n.id ≠ j) →
      dictGet (ns.foldl (fun d n => dictSet d n.id (val n)) d) j = dictGet d j := by
  intro ns
  induction ns with
  | nil => intro d j _; rfl
  | cons m ms ih =>
    intro d j h
    rw [List.foldl_cons, ih _ j (fun n hn => h n (List.mem_cons_of_mem m hn)),
      dictGet_set_ne _ _ _ _ (h m (List.mem_cons_self m ms))]

theorem foldl_dictSet_get (val : GasNode → ℚ) :
    ∀ (nodes : List GasNode) (d : List (Int × ℚ)) (n : GasNode), n ∈ nodes →
      (nodes.map GasNode.id).Nodup →
      dictGet (nodes.foldl (fun d n => dictSet d n.id (val n)) d) n.id = val n := by
  intro nodes
  induction nodes with
  | nil => intro d n hn; exact absurd hn (List.not_mem_nil n)
  | cons m ms ih =>
    intro d n hn hnd
    rw [List.map_cons, List.nodup_cons] at hnd
    rcases List.mem_cons.mp hn with h | h
    · subst h
      rw [List.foldl_cons,
        foldl_dictSet_get_of_ne val ms _ n.id
          (fun k hk hkj => hnd.1 (hkj ▸ List.mem_map_of_mem GasNode.id hk)),
        dictGet_set_self]
    · rw [List.foldl_cons]
      exact ih _ n h hnd.2

/-- Unique ids make the id map injective on the node list. -/
theorem id_inj_of_nodup (nodes : List GasNode) (h : (nodes.map GasNode.id).Nodup) :
    ∀ a ∈ nodes, ∀ b ∈ nodes, a.id = b.id → a = b := by
  intro a ha b hb hab
  exact List.inj_on_of_nodup_map h ha hb hab

/-! ### Source invariance and zero-degree invariance -/

/-- Core of source invariance: in a node list with unique ids, the solver
loop never writes the pressure entry of a source node. -/
theorem runSim_source_pressure (ops : RealOps) (eng : PhysicsEngine)
    (adj : Int → List Int) (nodes : List GasNode) (pipes : List GasPipe)
    (leaks : List (Int × ℚ)) (mult : ℚ) (maxIter : Nat) (threshold : ℚ)
    (hnd : (nodes.map GasNode.id).Nodup) (n : GasNode) (hn : n ∈ nodes)
    (hsrc : n.node_type = "source") :
    dictGet (runSim ops eng adj nodes pipes leaks mult maxIter threshold).node_pressures n.id
      = eng.source_pressure := by
  unfold runSim
  dsimp only
  rw [solveLoop_get_preserved]
  · rw [foldl_dictSet_get _ nodes [] n hn hnd, if_pos hsrc]
  · intro m hm
    by_cases hid : m.id = n.id
    · exact Or.inl (by rw [id_inj_of_nodup nodes hnd m hm n hn hid]; exact hsrc)
    · exact Or.inr (Or.inl hid)

/-- Core of zero-degree invariance: a non-source node with no neighbors
keeps its initial pressure estimate through every iteration. -/
theorem runSim_zero_degree_pressure (ops : RealOps) (eng : PhysicsEngine)
    (adj : Int → List Int) (nodes : List GasNode) (pipes : List GasPipe)
    (leaks : List (Int × ℚ)) (mult : ℚ) (maxIter : Nat) (threshold : ℚ)
    (hnd : (nodes.map GasNode.id).Nodup) (n : GasNode) (hn : n ∈ nodes)
    (hsrc : n.node_type ≠ "source") (hdeg : adj n.id = []) :
    dictGet (runSim ops eng adj nodes pipes leaks mult maxIter threshold).node_pressures n.id
      = eng.source_pressure * (8 / 10) := by
  unfold runSim
  dsimp only
  rw [solveLoop_get_preserved]
  · rw [foldl_dictSet_get _ nodes [] n hn hnd, if_neg hsrc]
  · intro m hm
    by_cases hid : m.id = n.id
    · refine Or.inr (Or.inr ?_)
      rw [hid, hdeg]
      rfl
    · exact Or.inr (Or.inl hid)

/-! ### The two-node network: leak versus no-leak pressure evolution -/

theorem nodeStep_twoNode_source (eng : PhysicsEngine) (adj : Int → List Int)
    (epm : List ((Int × Int) × GasPipe)) (leaks : List (Int × ℚ)) (st : SimulationState) :
    nodeStep eng adj epm leaks st twoNodeSource = st := rfl

/-- One consumer update in the two-node network with an active leak of
rate r: the written pressure is the relaxed leak estimate, floored.  The
equation is definitional. -/
theorem nodeStep_twoNode_consumer_leak_eq (r dem : ℚ) (st : SimulationState) :
    nodeStep defaultEngine twoNodeAdj (buildEdgePipeMap [twoNodePipe]) [(1, r)] st
      (twoNodeConsumer dem) =
      { st with node_pressures := (dictSet st.node_pressures 1
          (max ((3/10) * (dictGet st.node_pressures 0 * (1 - min (r/100) (9/10)) * (3/10)) +
            (1 - 3/10) * dictGet st.node_pressures 1) ((17/10) * (1/10)))) } := rfl

/-- One consumer update in the two-node network with no leak: the
written pressure is the relaxed demand estimate, floored.  The equation
is definitional. -/
theorem nodeStep_twoNode_consumer_noleak_eq (dem : ℚ) (st : SimulationState) :
    nodeStep defaultEngine twoNodeAdj (buildEdgePipeMap [twoNodePipe]) [] st
      (twoNodeConsumer dem) =
      { st with node_pressures := (dictSet st.node_pressures 1
          (max ((3/10) * (([dictGet st.node_pressures 0].sum /
              (([dictGet st.node_pressures 0] : List ℚ).length : ℚ)) *
              (1 - (dictGet st.node_actual_demand 1 /
                max (dictGet st.node_actual_demand 1 + 10) 1) * (1/10))) +
            (1 - 3/10) * dictGet st.node_pressures 1) ((17/10) * (1/10)))) } := rfl

/-- With the source at 400 and a positive leak at the consumer, one full
iteration keeps the source at 400 and drives the consumer to at most
260 whenever it was at most 320. -/
theorem twoNodeIter_leak (ops : RealOps) (r dem : ℚ) (st : SimulationState) (hr : 0 < r)
    (h0 : dictGet st.node_pressures 0 = 400) (h1 : dictGet st.node_pressures 1 ≤ 320) :
    dictGet (nodeLoop defaultEngine twoNodeAdj (buildEdgePipeMap [twoNodePipe]) [(1, r)]
      [twoNodeSource, twoNodeConsumer dem]
      (pipeLoop ops [twoNodePipe] st)).node_pressures 0 = 400 ∧
    dictGet (nodeLoop defaultEngine twoNodeAdj (buildEdgePipeMap [twoNodePipe]) [(1, r)]
      [twoNodeSource, twoNodeConsumer dem]
      (pipeLoop ops [twoNodePipe] st)).node_pressures 1 ≤ 260 := by
  have hpl0 : dictGet (pipeLoop ops [twoNodePipe] st).node_pressures 0 = 400 := by
    rw [pipeLoop_node_pressures]; exact h0
  have hpl1 : dictGet (pipeLoop ops [twoNodePipe] st).node_pressures 1 ≤ 320 := by
    rw [pipeLoop_node_pressures]; exact h1
  have hloop :
      nodeLoop defaultEngine twoNodeAdj (buildEdgePipeMap [twoNodePipe]) [(1, r)]
        [twoNodeSource, twoNodeConsumer dem] (pipeLoop ops [twoNodePipe] st) =
      nodeStep defaultEngine twoNodeAdj (buildEdgePipeMap [twoNodePipe]) [(1, r)]
        (pipeLoop ops [twoNodePipe] st) (twoNodeConsumer dem) := by
    unfold nodeLoop
    rw [List.foldl_cons, nodeStep_twoNode_source, List.foldl_cons, List.foldl_nil]
  rw [hloop, nodeStep_twoNode_consumer_leak_eq]
  dsimp only
  have hs0 : 0 ≤ min (r / 100) (9 / 10 : ℚ) := le_min (by positivity) (by norm_num)
  constructor
  · rw [dictGet_set_ne _ _ _ _ (by decide : (1 : Int) ≠ 0)]
    exact hpl0
  · rw [dictGet_set_self, hpl0, max_le_iff]
    constructor
    · nlinarith [hpl1, hs0]
    · norm_num

/-- With the source at 400, no leak, and nonnegative consumer demand,
one full iteration keeps the source at 400 and the consumer at or above
320 whenever it started at or above 320.  Demands are not modified by
the iteration. -/
theorem twoNodeIter_noleak (ops : RealOps) (dem : ℚ) (st : SimulationState)
    (h0 : dictGet st.node_pressures 0 = 400) (h1 : 320 ≤ dictGet st.node_pressures 1)
    (hd : 0 ≤ dictGet st.node_actual_demand 1) :
    dictGet (nodeLoop defaultEngine twoNodeAdj (buildEdgePipeMap [twoNodePipe]) []
      [twoNodeSource, twoNodeConsumer dem]
      (pipeLoop ops [twoNodePipe] st)).node_pressures 0 = 400 ∧
    320 ≤ dictGet (nodeLoop defaultEngine twoNodeAdj (buildEdgePipeMap [twoNodePipe]) []
      [twoNodeSource, twoNodeConsumer dem]
      (pipeLoop ops [twoNodePipe] st)).node_pressures 1 ∧
    (nodeLoop defaultEngine twoNodeAdj (buildEdgePipeMap [twoNodePipe]) []
      [twoNodeSource, twoNodeConsumer dem]
      (pipeLoop ops [twoNodePipe] st)).node_actual_demand = st.node_actual_demand := by
  have hpl0 : dictGet (pipeLoop ops [twoNodePipe] st).node_pressures 0 = 400 := by
    rw [pipeLoop_node_pressures]; exact h0
  have hpl1 : 320 ≤ dictGet (pipeLoop ops [twoNodePipe] st).node_pressures 1 := by
    rw [pipeLoop_node_pressures]; exact h1
  have hpld : dictGet (pipeLoop ops [twoNodePipe] st).node_actual_demand 1 =
      dictGet st.node_actual_demand 1 := by
    rw [pipeLoop_node_actual_demand]
  have hloop :
      nodeLoop defaultEngine twoNodeAdj (buildEdgePipeMap [twoNodePipe]) []
        [twoNodeSource, twoNodeConsumer dem] (pipeLoop ops [twoNodePipe] st) =
      nodeStep defaultEngine twoNodeAdj (buildEdgePipeMap [twoNodePipe]) []
        (pipeLoop ops [twoNodePipe] st) (twoNodeConsumer dem) := by
    unfold nodeLoop
    rw [List.foldl_cons, nodeStep_twoNode_source, List.foldl_cons, List.foldl_nil]
  rw [hloop, nodeStep_twoNode_consumer_noleak_eq]
  dsimp only
  set q := dictGet (pipeLoop ops [twoNodePipe] st).node_actual_demand 1 with hq
  have hq0 : 0 ≤ q := by rw [hpld]; exact hd
  have havg : ([dictGet (pipeLoop ops [twoNodePipe] st).node_pressures 0].sum /
      (([dictGet (pipeLoop ops [twoNodePipe] st).node_pressures 0] : List ℚ).length : ℚ)) =
      (400 : ℚ) := by
    rw [hpl0]; simp
  refine ⟨?_, ?_, ?_⟩
  · rw [dictGet_set_ne _ _ _ _ (by decide : (1 : Int) ≠ 0)]
    exact hpl0
  · rw [dictGet_set_self, havg]
    have hmax : max (q + 10) (1 : ℚ) = q + 10 := max_eq_left (by linarith)
    rw [hmax]
    have hdf1 : q / (q + 10) ≤ 1 := by
      rw [div_le_one (by linarith : (0 : ℚ) < q + 10)]
      linarith
    have hdf0 : 0 ≤ q / (q + 10) := by positivity
    have hnew : (360 : ℚ) ≤ 400 * (1 - q / (q + 10) * (1 / 10)) := by nlinarith
    refine le_trans ?_ (le_max_left _ _)
    nlinarith [hpl1]
  · exact pipeLoop_node_actual_demand ops [twoNodePipe] st

/-- The solver loop preserves the leak-run invariant: consumer at most
260, source at 400. -/
theorem solveLoop_twoNode_leak (ops : RealOps) (r dem : ℚ) (hr : 0 < r) :
    ∀ (fuel : Nat) (st : SimulationState),
      dictGet st.node_pressures 0 = 400 → dictGet st.node_pressures 1 ≤ 260 →
      dictGet (solveLoop ops defaultEngine twoNodeAdj (buildEdgePipeMap [twoNodePipe])
        [(1, r)] [twoNodeSource, twoNodeConsumer dem] [twoNodePipe] (1 / 100) fuel
        st).node_pressures 1 ≤ 260 := by
  intro fuel
  induction fuel with
  | zero => intro st _ h1; exact h1
  | succ f ih =>
    intro st h0 h1
    unfold solveLoop
    dsimp only
    obtain ⟨e0, e1⟩ := twoNodeIter_leak ops r dem st hr h0 (le_trans h1 (by norm_num))
    split
    · exact e1
    · exact ih _ e0 e1

/-- The solver loop preserves the no-leak invariant: consumer at least
320, source at 400, demands untouched. -/
theorem solveLoop_twoNode_noleak (ops : RealOps) (dem : ℚ) :
    ∀ (fuel : Nat) (st : SimulationState),
      dictGet st.node_pressures 0 = 400 → 320 ≤ dictGet st.node_pressures 1 →
      0 ≤ dictGet st.node_actual_demand 1 →
      320 ≤ dictGet (solveLoop ops defaultEngine twoNodeAdj (buildEdgePipeMap [twoNodePipe])
        [] [twoNodeSource, twoNodeConsumer dem] [twoNodePipe] (1 / 100) fuel
        st).node_pressures 1 := by
  intro fuel
  induction fuel with
  | zero => intro st _ h1 _; exact h1
  | succ f ih =>
    intro st h0 h1 hd
    unfold solveLoop
    dsimp only
    obtain ⟨e0, e1, ed⟩ := twoNodeIter_noleak ops dem st h0 h1 hd
    split
    · exact e1
    · refine ih _ e0 e1 ?_
      rw [ed]
      exact hd

/-- The full leak run of the two-node network ends with consumer
pressure at most 260 kPa. -/
theorem runSim_twoNode_leak (ops : RealOps) (r dem mult : ℚ) (hr : 0 < r) :
    dictGet (runSim ops defaultEngine twoNodeAdj [twoNodeSource, twoNodeConsumer dem]
      [twoNodePipe] [(1, r)] mult 100 (1 / 100)).node_pressures 1 ≤ 260 := by
  have hrun : runSim ops defaultEngine twoNodeAdj [twoNodeSource, twoNodeConsumer dem]
      [twoNodePipe] [(1, r)] mult 100 (1 / 100) =
      solveLoop ops defaultEngine twoNodeAdj (buildEdgePipeMap [twoNodePipe]) [(1, r)]
        [twoNodeSource, twoNodeConsumer dem] [twoNodePipe] (1 / 100) 100
        { node_pressures := [(0, 400), (1, 400 * (8 / 10))]
          node_actual_demand := [(0, 0 * mult + 0), (1, dem * mult + r)]
          pipe_flow_rates := []
          pipe_velocities := []
          pipe_pressure_drops := []
          pipe_reynolds := []
          active_leaks := [(1, r)]
          timestamp := 0 } := rfl
  rw [hrun, show (100 : Nat) = 99 + 1 from rfl, solveLoop]
  dsimp only
  obtain ⟨e0, e1⟩ :=
    twoNodeIter_leak ops r dem
      { node_pressures := [(0, 400), (1, 400 * (8 / 10))]
        node_actual_demand := [(0, 0 * mult + 0), (1, dem * mult + r)]
        pipe_flow_rates := []
        pipe_velocities := []
        pipe_pressure_drops := []
        pipe_reynolds := []
        active_leaks := [(1, r)]
        timestamp := 0 } hr (by norm_num [dictGet]) (by norm_num [dictGet])
  split
  · exact e1
  · exact solveLoop_twoNode_leak ops r dem hr 99 _ e0 e1

/-- The full no-leak run of the two-node network ends with consumer
pressure at least 320 kPa whenever the scaled demand is nonnegative. -/
theorem runSim_twoNode_noleak (ops : RealOps) (dem mult : ℚ) (hd : 0 ≤ dem * mult) :
    320 ≤ dictGet (runSim ops defaultEngine twoNodeAdj
      [twoNodeSource, twoNodeConsumer dem] [twoNodePipe] [] mult 100
      (1 / 100)).node_pressures 1 := by
  have hrun : runSim ops defaultEngine twoNodeAdj [twoNodeSource, twoNodeConsumer dem]
      [twoNodePipe] [] mult 100 (1 / 100) =
      solveLoop ops defaultEngine twoNodeAdj (buildEdgePipeMap [twoNodePipe]) []
        [twoNodeSource, twoNodeConsumer dem] [twoNodePipe] (1 / 100) 100
        { node_pressures := [(0, 400), (1, 400 * (8 / 10))]
          node_actual_demand := [(0, 0 * mult + 0), (1, dem * mult + 0)]
          pipe_flow_rates := []
          pipe_velocities := []
          pipe_pressure_drops := []
          pipe_reynolds := []
          active_leaks := []
          timestamp := 0 } := rfl
  rw [hrun]
  refine solveLoop_twoNode_noleak ops dem 100 _ (by norm_num [dictGet])
    (by norm_num [dictGet]) ?_
  have : dictGet [((0 : Int), 0 * mult + 0), (1, dem * mult + 0)] 1 = dem * mult + 0 := by
    norm_num [dictGet]
  rw [this]
  linarith

/-! ### The detector on candidate-free inputs -/

/-- When candidate identification returns the empty list, the whole
downstream pipeline degenerates: no clusters, no traced leaks, no
detected leaks, and exactly the single no-significant-leaks
recommendation. -/
theorem analyze_network_no_candidates (ops : RealOps) (det : LeakDetector)
    (adj : Int → List Int) (nodes : List GasNode) (pipes : List GasPipe)
    (simulation_state : SimulationState) (baseline_state : Option SimulationState)
    (h : analysisCandidates ops det adj nodes simulation_state baseline_state = []) :
    (analyze_network ops det adj nodes pipes simulation_state
        baseline_state).detected_leaks = [] ∧
    (analyze_network ops det adj nodes pipes simulation_state
        baseline_state).recommendations = [Recommendation.noSignificantLeaks] := by
  unfold analyze_network
  dsimp only
  rw [h]
  exact ⟨rfl, rfl⟩

/-! ### Partition properties of the anomaly clustering -/

/-- Behavior of one clusterBFS traversal: the visited set grows, the
cluster grows by exactly the newly visited candidates, stays duplicate
free, and stays inside the visited set. -/
theorem clusterBFS_spec (adj : Int → List Int) (cand : List Int) :
    ∀ (fuel : Nat) (queue visited cluster : List Int),
      cluster.Nodup → (∀ i ∈ cluster, i ∈ visited) →
      (∀ i ∈ visited, i ∈ (clusterBFS adj cand fuel queue visited cluster).2) ∧
      (∃ δ, (clusterBFS adj cand fuel queue visited cluster).1 = cluster ++ δ) ∧
      (∀ i ∈ (clusterBFS adj cand fuel queue visited cluster).1,
        i ∈ cluster ∨ (i ∈ cand ∧ i ∉ visited ∧
          i ∈ (clusterBFS adj cand fuel queue visited cluster).2)) ∧
      (clusterBFS adj cand fuel queue visited cluster).1.Nodup ∧
      (∀ i ∈ (clusterBFS adj cand fuel queue visited cluster).1,
        i ∈ (clusterBFS adj cand fuel queue visited cluster).2) ∧
      (∀ i ∈ (clusterBFS adj cand fuel queue visited cluster).2,
        i ∈ visited ∨ i ∉ cand ∨ i ∈ (clusterBFS adj cand fuel queue visited cluster).1) := by
  intro fuel
  induction fuel with
  | zero =>
    intro queue visited cluster hnd hsub
    refine ⟨fun i hi => hi, ⟨[], (List.append_nil cluster).symm⟩,
      fun i hi => Or.inl hi, hnd, hsub, fun i hi => Or.inl hi⟩
  | succ f ih =>
    intro queue visited cluster hnd hsub
    match queue with
    | [] =>
      refine ⟨fun i hi => hi, ⟨[], (List.append_nil cluster).symm⟩,
        fun i hi => Or.inl hi, hnd, hsub, fun i hi => Or.inl hi⟩
    | node :: rest =>
      by_cases hv : node ∈ visited
      · have heq : clusterBFS adj cand (f + 1) (node :: rest) visited cluster =
            clusterBFS adj cand f rest visited cluster := by
          simp only [clusterBFS]
          rw [if_pos hv]
        rw [heq]
        exact ih rest visited cluster hnd hsub
      · by_cases hc : node ∈ cand
        · have heq : clusterBFS adj cand (f + 1) (node :: rest) visited cluster =
              clusterBFS adj cand f
                (rest ++ (adj node).filter (fun nb => nb ∉ (node :: visited)))
                (node :: visited) (cluster ++ [node]) := by
            simp only [clusterBFS]
            rw [if_neg hv, if_pos hc]
          rw [heq]
          have hnd1 : (cluster ++ [node]).Nodup := by
            rw [List.nodup_append]
            exact ⟨hnd, List.nodup_singleton node,
              fun a ha hb => by
                rw [List.mem_singleton] at hb
                exact hv (hb ▸ hsub a ha)⟩
          have hsub1 : ∀ i ∈ cluster ++ [node], i ∈ node :: visited := by
            intro i hi
            rcases List.mem_append.mp hi with hi | hi
            · exact List.mem_cons_of_mem node (hsub i hi)
            · rw [List.mem_singleton] at hi
              exact hi ▸ List.mem_cons_self node visited
          obtain ⟨ha, ⟨δ, hb⟩, hc2, hd, he, hf⟩ :=
            ih (rest ++ (adj node).filter (fun nb => nb ∉ (node :: visited)))
              (node :: visited) (cluster ++ [node]) hnd1 hsub1
          refine ⟨fun i hi => ha i (List.mem_cons_of_mem node hi),
            ⟨node :: δ, by rw [hb, List.append_assoc]; rfl⟩, ?_, hd, he, ?_⟩
          · intro i hi
            rcases hc2 i hi with hi2 | ⟨hi2, hi3, hi4⟩
            · rcases List.mem_append.mp hi2 with hi3 | hi3
              · exact Or.inl hi3
              · rw [List.mem_singleton] at hi3
                subst hi3
                exact Or.inr ⟨hc, hv, ha i (List.mem_cons_self i visited)⟩
            · exact Or.inr ⟨hi2, fun hmem => hi3 (List.mem_cons_of_mem node hmem), hi4⟩
          · intro i hi
            rcases hf i hi with hi2 | hi2 | hi2
            · rcases List.mem_cons.mp hi2 with hi3 | hi3
              · subst hi3
                refine Or.inr (Or.inr ?_)
                rw [hb]
                exact List.mem_append.mpr (Or.inl (List.mem_append.mpr
                  (Or.inr (List.mem_singleton.mpr rfl))))
              · exact Or.inl hi3
            · exact Or.inr (Or.inl hi2)
            · exact Or.inr (Or.inr hi2)
        · have heq : clusterBFS adj cand (f + 1) (node :: rest) visited cluster =
              clusterBFS adj cand f rest (node :: visited) cluster := by
            simp only [clusterBFS]
            rw [if_neg hv, if_neg hc]
          rw [heq]
          have hsub1 : ∀ i ∈ cluster, i ∈ node :: visited :=
            fun i hi => List.mem_cons_of_mem node (hsub i hi)
          obtain ⟨ha, hb, hc2, hd, he, hf⟩ := ih rest (node :: visited) cluster hnd hsub1
          refine ⟨fun i hi => ha i (List.mem_cons_of_mem node hi), hb, ?_, hd, he, ?_⟩
          · intro i hi
            rcases hc2 i hi with hi2 | ⟨hi2, hi3, hi4⟩
            · exact Or.inl hi2
            · exact Or.inr ⟨hi2, fun hmem => hi3 (List.mem_cons_of_mem node hmem), hi4⟩
          · intro i hi
            rcases hf i hi with hi2 | hi2 | hi2
            · rcases List.mem_cons.mp hi2 with hi3 | hi3
              · subst hi3
                exact Or.inr (Or.inl hc)
              · exact Or.inl hi3
            · exact Or.inr (Or.inl hi2)
            · exact Or.inr (Or.inr hi2)

/-- The head of the queue is always visited after a traversal with
positive fuel. -/
theorem clusterBFS_head_visited (adj : Int → List Int) (cand : List Int) (f : Nat)
    (c : Int) (rest visited cluster : List Int) (hnd : cluster.Nodup)
    (hsub : ∀ i ∈ cluster, i ∈ visited) :
    c ∈ (clusterBFS adj cand (f + 1) (c :: rest) visited cluster).2 := by
  by_cases hv : c ∈ visited
  · have heq : clusterBFS adj cand (f + 1) (c :: rest) visited cluster =
        clusterBFS adj cand f rest visited cluster := by
      simp only [clusterBFS]
      rw [if_pos hv]
    rw [heq]
    exact (clusterBFS_spec adj cand f rest visited cluster hnd hsub).1 c hv
  · by_cases hc : c ∈ cand
    · have heq : clusterBFS adj cand (f + 1) (c :: rest) visited cluster =
          clusterBFS adj cand f
            (rest ++ (adj c).filter (fun nb => nb ∉ (c :: visited)))
            (c :: visited) (cluster ++ [c]) := by
        simp only [clusterBFS]
        rw [if_neg hv, if_pos hc]
      rw [heq]
      have hnd1 : (cluster ++ [c]).Nodup := by
        rw [List.nodup_append]
        exact ⟨hnd, List.nodup_singleton c,
          fun a ha hb => by
            rw [List.mem_singleton] at hb
            exact hv (hb ▸ hsub a ha)⟩
      have hsub1 : ∀ i ∈ cluster ++ [c], i ∈ c :: visited := by
        intro i hi
        rcases List.mem_append.mp hi with hi | hi
        · exact List.mem_cons_of_mem c (hsub i hi)
        · rw [List.mem_singleton] at hi
          exact hi ▸ List.mem_cons_self c visited
      exact (clusterBFS_spec adj cand f _ _ _ hnd1 hsub1).1 c
        (List.mem_cons_self c visited)
    · have heq : clusterBFS adj cand (f + 1) (c :: rest) visited cluster =
          clusterBFS adj cand f rest (c :: visited) cluster := by
        simp only [clusterBFS]
        rw [if_neg hv, if_neg hc]
      rw [heq]
      exact (clusterBFS_spec adj cand f rest (c :: visited) cluster hnd
        (fun i hi => List.mem_cons_of_mem c (hsub i hi))).1 c
        (List.mem_cons_self c visited)

/-- Invariant of the outer clustering fold: the concatenation of the
clusters found so far is duplicate free and consists exactly of the
visited candidate ids; every processed candidate ends up visited. -/
theorem cluster_fold_spec (adj : Int → List Int) (cand : List Int) (fuel : Nat) :
    ∀ (cs : List AnomalyScore) (acc : List (List Int) × List Int),
      (acc.1.flatten.Nodup) →
      (∀ i, i ∈ acc.1.flatten ↔ (i ∈ acc.2 ∧ i ∈ cand)) →
      (∀ cl ∈ acc.1, cl ≠ []) →
      ((cs.foldl
        (fun (st : List (List Int) × List Int) c =>
          if c.node_id ∈ st.2 then st
          else
            let r := clusterBFS adj cand (fuel + 1) [c.node_id] st.2 []
            (if r.1 = [] then st.1 else st.1 ++ [r.1], r.2)) acc).1.flatten.Nodup) ∧
      (∀ i, i ∈ (cs.foldl
        (fun (st : List (List Int) × List Int) c =>
          if c.node_id ∈ st.2 then st
          else
            let r := clusterBFS adj cand (fuel + 1) [c.node_id] st.2 []
            (if r.1 = [] then st.1 else st.1 ++ [r.1], r.2)) acc).1.flatten ↔
          (i ∈ (cs.foldl
            (fun (st : List (List Int) × List Int) c =>
              if c.node_id ∈ st.2 then st
              else
                let r := clusterBFS adj cand (fuel + 1) [c.node_id] st.2 []
                (if r.1 = [] then st.1 else st.1 ++ [r.1], r.2)) acc).2 ∧ i ∈ cand)) ∧
      (∀ cl ∈ (cs.foldl
        (fun (st : List (List Int) × List Int) c =>
          if c.node_id ∈ st.2 then st
          else
            let r := clusterBFS adj cand (fuel + 1) [c.node_id] st.2 []
            (if r.1 = [] then st.1 else st.1 ++ [r.1], r.2)) acc).1, cl ≠ []) ∧
      (∀ i ∈ acc.2, i ∈ (cs.foldl
        (fun (st : List (List Int) × List Int) c =>
          if c.node_id ∈ st.2 then st
          else
            let r := clusterBFS adj cand (fuel + 1) [c.node_id] st.2 []
            (if r.1 = [] then st.1 else st.1 ++ [r.1], r.2)) acc).2) ∧
      (∀ c ∈ cs, c.node_id ∈ (cs.foldl
        (fun (st : List (List Int) × List Int) c =>
          if c.node_id ∈ st.2 then st
          else
            let r := clusterBFS adj cand (fuel + 1) [c.node_id] st.2 []
            (if r.1 = [] then st.1 else st.1 ++ [r.1], r.2)) acc).2) := by
  intro cs
  induction cs with
  | nil =>
    intro acc h1 h2 h3
    exact ⟨h1, h2, h3, fun i hi => hi, fun c hc => absurd hc (List.not_mem_nil c)⟩
  | cons c cs ih =>
    intro acc h1 h2 h3
    rw [List.foldl_cons]
    by_cases hv : c.node_id ∈ acc.2
    · rw [if_pos hv]
      obtain ⟨g1, g2, g3, g4, g5⟩ := ih acc h1 h2 h3
      refine ⟨g1, g2, g3, g4, ?_⟩
      intro d hd
      rcases List.mem_cons.mp hd with hd | hd
      · exact hd ▸ g4 _ hv
      · exact g5 d hd
    · rw [if_neg hv]
      dsimp only
      obtain ⟨ba, ⟨δ, bb⟩, bc, bd, be, bf⟩ :=
        clusterBFS_spec adj cand (fuel + 1) [c.node_id] acc.2 [] List.nodup_nil
          (fun i hi => absurd hi (List.not_mem_nil i))
      have hcv : c.node_id ∈ (clusterBFS adj cand (fuel + 1) [c.node_id] acc.2 []).2 :=
        clusterBFS_head_visited adj cand fuel c.node_id [] acc.2 [] List.nodup_nil
          (fun i hi => absurd hi (List.not_mem_nil i))
      set r := clusterBFS adj cand (fuel + 1) [c.node_id] acc.2 [] with hr
      have hacc1 : ((if r.1 = [] then acc.1 else acc.1 ++ [r.1]), r.2).1.flatten.Nodup := by
        dsimp only
        split
        · exact h1
        · rw [List.flatten_append]
          simp only [List.flatten, List.append_nil]
          rw [List.nodup_append]
          refine ⟨h1, bd, ?_⟩
          intro a haj har
          rcases bc a har with ha2 | ⟨_, ha3, _⟩
          · exact absurd ha2 (List.not_mem_nil a)
          · exact ha3 ((h2 a).mp haj).1
      have hacc2 : ∀ i, i ∈ ((if r.1 = [] then acc.1 else acc.1 ++ [r.1]), r.2).1.flatten ↔
          (i ∈ ((if r.1 = [] then acc.1 else acc.1 ++ [r.1]), r.2).2 ∧ i ∈ cand) := by
        intro i
        dsimp only
        constructor
        · intro hi
          have hi2 : i ∈ acc.1.flatten ∨ i ∈ r.1 := by
            rcases (em (r.1 = [])) with he | he
            · rw [if_pos he] at hi
              exact Or.inl hi
            · rw [if_neg he] at hi
              rw [List.flatten_append] at hi
              simp only [List.flatten, List.append_nil] at hi
              exact List.mem_append.mp hi
          rcases hi2 with hi2 | hi2
          · obtain ⟨hiv, hic⟩ := (h2 i).mp hi2
            exact ⟨ba i hiv, hic⟩
          · rcases bc i hi2 with hi3 | ⟨hi3, _, hi5⟩
            · exact absurd hi3 (List.not_mem_nil i)
            · exact ⟨hi5, hi3⟩
        · rintro ⟨hiv, hic⟩
          rcases bf i hiv with hi2 | hi2 | hi2
          · have := (h2 i).mpr ⟨hi2, hic⟩
            rcases (em (r.1 = [])) with he | he
            · rw [if_pos he]
              exact this
            · rw [if_neg he]
              rw [List.flatten_append]
              simp only [List.flatten, List.append_nil]
              exact List.mem_append.mpr (Or.inl this)
          · exact absurd hic hi2
          · have hne : r.1 ≠ [] := fun he => absurd (he ▸ hi2) (List.not_mem_nil i)
            rw [if_neg hne]
            rw [List.flatten_append]
            simp only [List.flatten, List.append_nil]
            exact List.mem_append.mpr (Or.inr hi2)
      have hacc3 : ∀ cl ∈ ((if r.1 = [] then acc.1 else acc.1 ++ [r.1]), r.2).1, cl ≠ [] := by
        intro cl hcl
        dsimp only at hcl
        rcases (em (r.1 = [])) with he | he
        · rw [if_pos he] at hcl
          exact h3 cl hcl
        · rw [if_neg he] at hcl
          rcases List.mem_append.mp hcl with hcl | hcl
          · exact h3 cl hcl
          · rw [List.mem_singleton] at hcl
            exact hcl ▸ he
      obtain ⟨g1, g2, g3, g4, g5⟩ :=
        ih ((if r.1 = [] then acc.1 else acc.1 ++ [r.1]), r.2) hacc1 hacc2 hacc3
      refine ⟨g1, g2, g3, fun i hi => g4 i (ba i hi), ?_⟩
      intro d hd
      rcases List.mem_cons.mp hd with hd | hd
      · exact hd ▸ g4 _ hcv
      · exact g5 d hd

/-- In a duplicate-free concatenation, a present element lies in exactly
one of the component lists. -/
theorem countP_eq_one_of_flatten_nodup :
    ∀ (L : List (List Int)) (i : Int), L.flatten.Nodup → i ∈ L.flatten →
      L.countP (fun cl => decide (i ∈ cl)) = 1 := by
  intro L
  induction L with
  | nil => intro i _ hi; exact absurd hi (List.not_mem_nil i)
  | cons cl rest ih =>
    intro i hnd hi
    have hnd2 := hnd
    rw [show (cl :: rest).flatten = cl ++ rest.flatten from rfl, List.nodup_append] at hnd2
    obtain ⟨h1, h2, hdisj⟩ := hnd2
    rw [List.countP_cons]
    by_cases hin : i ∈ cl
    · have hrest : rest.countP (fun cl => decide (i ∈ cl)) = 0 := by
        rw [List.countP_eq_zero]
        intro a ha
        simp only [decide_eq_true_eq]
        intro hia
        exact hdisj hin (List.mem_flatten.mpr ⟨a, ha, hia⟩)
      rw [hrest]
      simp [hin]
    · have hi2 : i ∈ rest.flatten := by
        rw [show (cl :: rest).flatten = cl ++ rest.flatten from rfl] at hi
        rcases List.mem_append.mp hi with h | h
        · exact absurd h hin
        · exact h
      rw [ih i h2 hi2]
      simp [hin]

/-- Partition property of the anomaly clustering: the produced clusters
are nonempty, pairwise disjoint, duplicate free, and their union is
exactly the set of candidate node ids; hence every candidate id lies in
exactly one cluster. -/
theorem cluster_anomalies_partition (adj : Int → List Int)
    (candidates : List AnomalyScore) (node_dict : List (Int × GasNode)) :
    ((cluster_anomalies adj candidates node_dict).flatten.Nodup) ∧
    (∀ i, i ∈ (cluster_anomalies adj candidates node_dict).flatten ↔
      i ∈ candidates.map (fun c => c.node_id)) ∧
    (∀ cl ∈ cluster_anomalies adj candidates node_dict, cl ≠ []) ∧
    (∀ i ∈ candidates.map (fun c => c.node_id),
      (cluster_anomalies adj candidates node_dict).countP (fun cl => decide (i ∈ cl)) = 1) := by
  by_cases hc : candidates = []
  · subst hc
    refine ⟨List.nodup_nil, ?_, ?_, ?_⟩
    · intro i
      simp [cluster_anomalies]
    · intro cl hcl
      simp [cluster_anomalies] at hcl
    · intro i hi
      exact absurd hi (List.not_mem_nil i)
  · have hmain :
        ((cluster_anomalies adj candidates node_dict).flatten.Nodup) ∧
        (∀ i, i ∈ (cluster_anomalies adj candidates node_dict).flatten ↔
          i ∈ candidates.map (fun c => c.node_id)) ∧
        (∀ cl ∈ cluster_anomalies adj candidates node_dict, cl ≠ []) := by
      unfold cluster_anomalies
      rw [if_neg hc]
      dsimp only
      obtain ⟨g1, g2, g3, g4, g5⟩ :=
        cluster_fold_spec adj (candidates.map (fun c => c.node_id))
          ((candidates.map (fun c => c.node_id)).foldl
            (fun a i => a + ((adj i).length + 1)) 0)
          candidates ([], []) List.nodup_nil
          (fun i => ⟨fun hi => absurd hi (List.not_mem_nil i),
            fun ⟨hi, _⟩ => absurd hi (List.not_mem_nil i)⟩)
          (fun cl hcl => absurd hcl (List.not_mem_nil cl))
      refine ⟨g1, ?_, g3⟩
      intro i
      constructor
      · intro hi
        exact ((g2 i).mp hi).2
      · intro hi
        obtain ⟨c, hcmem, hcid⟩ := List.mem_map.mp hi
        exact (g2 i).mpr ⟨hcid ▸ g5 c hcmem, hi⟩
    obtain ⟨g1, g2, g3⟩ := hmain
    refine ⟨g1, g2, g3, ?_⟩
    intro i hi
    exact countP_eq_one_of_flatten_nodup _ i g1 ((g2 i).mpr hi)

/-! ### Claim theorems -/

attribute [local semireducible] Rat.add Rat.mul Rat.sub Rat.inv in
/-- C1 counterexample: with diameter 1 and length 1 (both positive) but
inlet pressure -1, the calculator returns the clamp value -0.95, a
negative pressure drop, refuting the lower bound of the claim for
arbitrary inlet pressure. -/
theorem C1_counterexample :
    (calculate_pressure_drop zeroOps 0 1 1 0 (-1)).1 < 0 := by decide

/-- C1 amended: for diameter > 0, length > 0, and nonnegative inlet
pressure (the counterexample forces this added hypothesis), the returned
pressure drop satisfies 0 ≤ drop ≤ 0.95 times the inlet pressure, for
all flow rates and roughness values, assuming only that the abstract
square-root primitive is nonnegative on nonnegative arguments. -/
theorem C1_amended_drop_bounds (ops : RealOps)
    (flow_rate length diameter roughness inlet_pressure : ℚ)
    (hd : 0 < diameter) (hL : 0 < length) (hin : 0 ≤ inlet_pressure)
    (hrpow : ∀ x : ℚ, 0 ≤ x → 0 ≤ ops.rpow x (1 / 2)) :
    0 ≤ (calculate_pressure_drop ops flow_rate length diameter roughness inlet_pressure).1 ∧
    (calculate_pressure_drop ops flow_rate length diameter roughness inlet_pressure).1 ≤
      inlet_pressure * (95 / 100) :=
  calculate_pressure_drop_bounds ops flow_rate length diameter roughness inlet_pressure
    hd hL hin hrpow

/-- C1 witness: the amended bounds at a concrete realistic input. -/
theorem C1_witness :
    0 ≤ (calculate_pressure_drop zeroOps 100 500 (3 / 20) (9 / 200000) 400).1 ∧
    (calculate_pressure_drop zeroOps 100 500 (3 / 20) (9 / 200000) 400).1 ≤
      400 * (95 / 100) :=
  C1_amended_drop_bounds zeroOps 100 500 (3 / 20) (9 / 200000) 400 (by norm_num)
    (by norm_num) (by norm_num) (fun x _ => le_refl 0)

/-- C2: for every well-formed topology and every leak map, demand
multiplier, and engine configuration, the state returned by
simulate_network assigns to every source node exactly the configured
source pressure. -/
theorem C2_source_invariance (ops : RealOps) (eng : PhysicsEngine) (adj : Int → List Int)
    (nodes : List GasNode) (pipes : List GasPipe) (leaks : List (Int × ℚ)) (mult : ℚ)
    (maxIter : Nat) (threshold : ℚ) (hwf : WellFormed adj nodes pipes) :
    ∀ s, simulate_network ops eng adj nodes pipes leaks mult maxIter threshold = some s →
      ∀ n ∈ nodes, n.node_type = "source" →
        dictGet s.node_pressures n.id = eng.source_pressure := by
  intro s hs n hn hsrc
  unfold simulate_network at hs
  rw [if_neg (fun hcon => hwf.1 hcon.1), Option.some.injEq] at hs
  subst hs
  exact runSim_source_pressure ops eng adj nodes pipes leaks mult maxIter threshold
    hwf.2.1 n hn hsrc

/-- C2 witness: the single-source topology with no pipes keeps the
source at 400 kPa. -/
theorem C2_witness :
    dictGet (runSim zeroOps defaultEngine emptyAdj singleSourceNodes [] [] 1 100
      (1 / 100)).node_pressures twoNodeSource.id = defaultEngine.source_pressure :=
  C2_source_invariance zeroOps defaultEngine emptyAdj singleSourceNodes [] [] 1 100 (1 / 100)
    (by constructor
        · decide
        · refine ⟨by decide, ?_, ?_⟩
          · intro p hp
            exact absurd hp (List.not_mem_nil p)
          · decide)
    _ rfl twoNodeSource (by decide) rfl

/-- C3: the solver is deterministic; two invocations on equal inputs
return equal SimulationStates (the embedding is a pure function over the
explicitly listed inputs, mirroring the fixed insertion-order iteration
of the source). -/
theorem C3_determinism (ops₁ ops₂ : RealOps) (eng₁ eng₂ : PhysicsEngine)
    (adj₁ adj₂ : Int → List Int) (nodes₁ nodes₂ : List GasNode)
    (pipes₁ pipes₂ : List GasPipe) (leaks₁ leaks₂ : List (Int × ℚ)) (mult₁ mult₂ : ℚ)
    (maxIter₁ maxIter₂ : Nat) (th₁ th₂ : ℚ)
    (hops : ops₁ = ops₂) (heng : eng₁ = eng₂) (hadj : adj₁ = adj₂)
    (hnodes : nodes₁ = nodes₂) (hpipes : pipes₁ = pipes₂) (hleaks : leaks₁ = leaks₂)
    (hmult : mult₁ = mult₂) (hiter : maxIter₁ = maxIter₂) (hth : th₁ = th₂) :
    simulate_network ops₁ eng₁ adj₁ nodes₁ pipes₁ leaks₁ mult₁ maxIter₁ th₁ =
      simulate_network ops₂ eng₂ adj₂ nodes₂ pipes₂ leaks₂ mult₂ maxIter₂ th₂ := by
  subst hops heng hadj hnodes hpipes hleaks hmult hiter hth
  rfl

/-- C3 witness: determinism instantiated on the two-node topology. -/
theorem C3_witness :
    simulate_network zeroOps defaultEngine twoNodeAdj [twoNodeSource, twoNodeConsumer 5]
      [twoNodePipe] [(1, 150)] 1 100 (1 / 100) =
    simulate_network zeroOps defaultEngine twoNodeAdj [twoNodeSource, twoNodeConsumer 5]
      [twoNodePipe] [(1, 150)] 1 100 (1 / 100) :=
  C3_determinism zeroOps zeroOps defaultEngine defaultEngine twoNodeAdj twoNodeAdj
    [twoNodeSource, twoNodeConsumer 5] [twoNodeSource, twoNodeConsumer 5]
    [twoNodePipe] [twoNodePipe] [(1, 150)] [(1, 150)] 1 1 100 100 (1 / 100) (1 / 100)
    rfl rfl rfl rfl rfl rfl rfl rfl rfl

attribute [local semireducible] Rat.add Rat.mul Rat.sub Rat.inv in
set_option maxRecDepth 100000 in
set_option maxHeartbeats 12000000 in
/-- C4 counterexample: in the hub topology, raising the hub leak rate
from zero to one raises the hub's pressure after the run (about 113.5
kPa without the leak, about 118.8 kPa with it, at 55 scheduled
iterations): the leak branch rebuilds the pressure from 30 percent of
the highest neighbor (the 400 kPa source) while the no-leak branch
averages over the fifteen heavily loaded leaves, so the claimed
monotonicity fails. -/
theorem C4_counterexample :
    simulate_network zeroOps defaultEngine hubAdj hubNodes hubPipes [(1, 1)] 1 55
        (1 / 100) =
      some (runSim zeroOps defaultEngine hubAdj hubNodes hubPipes [(1, 1)] 1 55
        (1 / 100)) ∧
    simulate_network zeroOps defaultEngine hubAdj hubNodes hubPipes [] 1 55 (1 / 100) =
      some (runSim zeroOps defaultEngine hubAdj hubNodes hubPipes [] 1 55 (1 / 100)) ∧
    dictGet (runSim zeroOps defaultEngine hubAdj hubNodes hubPipes [] 1 55
        (1 / 100)).node_pressures 1 <
      dictGet (runSim zeroOps defaultEngine hubAdj hubNodes hubPipes [(1, 1)] 1 55
        (1 / 100)).node_pressures 1 :=
  ⟨rfl, rfl, by decide⟩

/-- C4 amended: leak monotonicity does hold in the two-node
source-consumer network of the specification scenario: for every
positive leak rate at the consumer and nonnegative scaled demand, the
converged consumer pressure under the leak is strictly below the
zero-leak baseline.  The original claim over every topology is refuted
by the hub counterexample. -/
theorem C4_amended_leak_monotone_two_node (ops : RealOps) (r dem mult : ℚ)
    (hr : 0 < r) (hdm : 0 ≤ dem * mult) :
    ∀ s₁ s₂,
      simulate_network ops defaultEngine twoNodeAdj [twoNodeSource, twoNodeConsumer dem]
        [twoNodePipe] [(1, r)] mult 100 (1 / 100) = some s₁ →
      simulate_network ops defaultEngine twoNodeAdj [twoNodeSource, twoNodeConsumer dem]
        [twoNodePipe] [] mult 100 (1 / 100) = some s₂ →
      dictGet s₁.node_pressures 1 < dictGet s₂.node_pressures 1 := by
  intro s₁ s₂ h₁ h₂
  unfold simulate_network at h₁ h₂
  rw [if_neg (fun hcon => List.cons_ne_nil _ _ hcon.1), Option.some.injEq] at h₁ h₂
  subst h₁
  subst h₂
  have hl := runSim_twoNode_leak ops r dem mult hr
  have hn := runSim_twoNode_noleak ops dem mult hdm
  linarith

/-- C4 witness: the scenario values of the specification (leak 150,
base demand 5, multiplier 1). -/
theorem C4_witness :
    dictGet (runSim zeroOps defaultEngine twoNodeAdj [twoNodeSource, twoNodeConsumer 5]
      [twoNodePipe] [(1, 150)] 1 100 (1 / 100)).node_pressures 1 <
    dictGet (runSim zeroOps defaultEngine twoNodeAdj [twoNodeSource, twoNodeConsumer 5]
      [twoNodePipe] [] 1 100 (1 / 100)).node_pressures 1 :=
  C4_amended_leak_monotone_two_node zeroOps 150 5 1 (by norm_num) (by norm_num) _ _ rfl rfl

/-- C5: continuity of the friction-factor regimes at both boundaries.
The dispatch selects the transition formula at Re 2300 and the
Swamee-Jain formula at Re 4000; the transition formula coincides exactly
with the laminar value at 2300 and with the Swamee-Jain value at 4000,
so the relative difference is zero, well below one percent (stated
strictly at 2300 where the laminar value is a nonzero constant, and
under nonvanishing of the Swamee-Jain value at 4000). -/
theorem C5_friction_continuity (ops : RealOps) (rr : ℚ) :
    calculate_friction_factor ops 2300 rr = transitionFormula ops rr 2300 ∧
    calculate_friction_factor ops 4000 rr = swamee_jain ops 4000 rr ∧
    transitionFormula ops rr 2300 = laminarFormula 2300 ∧
    transitionFormula ops rr 4000 = swamee_jain ops 4000 rr ∧
    |laminarFormula 2300 - transitionFormula ops rr 2300| <
      (1 / 100) * |laminarFormula 2300| ∧
    (swamee_jain ops 4000 rr ≠ 0 →
      |transitionFormula ops rr 4000 - swamee_jain ops 4000 rr| <
        (1 / 100) * |swamee_jain ops 4000 rr|) := by
  obtain ⟨h1, h2, h3, h4⟩ := friction_continuity_eq ops rr
  refine ⟨h1, h2, h3, h4, ?_, ?_⟩
  · rw [h3, sub_self, abs_zero]
    have : laminarFormula 2300 = 64 / 2300 := by
      unfold laminarFormula
      norm_num
    rw [this]
    norm_num
  · intro hne
    rw [h4, sub_self, abs_zero]
    positivity

/-- C5 witness: with a log10 primitive that is constantly one and zero
roughness, the Swamee-Jain value at Re 4000 is one quarter, nonzero, and
the boundary difference is strictly below one percent of it. -/
theorem C5_witness :
    |transitionFormula oneOps 0 4000 - swamee_jain oneOps 4000 0| <
      (1 / 100) * |swamee_jain oneOps 4000 0| :=
  (C5_friction_continuity oneOps 0).2.2.2.2.2
    (by norm_num [swamee_jain, oneOps])

attribute [local semireducible] Rat.add Rat.mul Rat.sub Rat.inv in
/-- C6 counterexample: a topology with one node and zero pipes is
invalid according to the claim, yet simulate_network silently returns a
fully computed SimulationState instead of failing. -/
theorem C6_counterexample :
    simulate_network zeroOps defaultEngine emptyAdj singleSourceNodes [] [] 1 100
        (1 / 100) =
      some
        { node_pressures := [(0, 400)]
          node_actual_demand := [(0, 0)]
          pipe_flow_rates := []
          pipe_velocities := []
          pipe_pressure_drops := []
          pipe_reynolds := []
          active_leaks := []
          timestamp := 0 } := by decide

/-- C6 amended: the solver performs no topology validation.  For a
pipe-free topology (invalid according to the claim, which demands at
least one pipe) the call does not fail fast: with at least one node it
silently returns a computed state.  Only the zero-node case is fatal
(the max over an empty sequence raises, modelled as none, whenever at
least one iteration is scheduled).  The statement is restricted to an
empty pipe list because pipes with non-positive diameter make the
source raise incidental arithmetic errors (ZeroDivisionError at
physics.py line 144 for a zero diameter) that the rational model does
not reproduce; those raises are accidents of the arithmetic, not the
fail-fast validation the claim describes. -/
theorem C6_amended_no_validation (ops : RealOps) (eng : PhysicsEngine)
    (adj : Int → List Int) (nodes : List GasNode)
    (leaks : List (Int × ℚ)) (mult : ℚ) (maxIter : Nat) (threshold : ℚ) :
    (nodes = [] → 1 ≤ maxIter →
      simulate_network ops eng adj nodes [] leaks mult maxIter threshold = none) ∧
    (nodes ≠ [] →
      simulate_network ops eng adj nodes [] leaks mult maxIter threshold =
        some (runSim ops eng adj nodes [] leaks mult maxIter threshold)) := by
  constructor
  · intro h1 h2
    unfold simulate_network
    rw [if_pos ⟨h1, h2⟩]
  · intro h
    unfold simulate_network
    rw [if_neg (fun hcon => h hcon.1)]

/-- C6 witness: the empty topology fails, the one-node topology with no
pipes succeeds. -/
theorem C6_witness :
    simulate_network zeroOps defaultEngine emptyAdj [] [] [] 1 100 (1 / 100) = none ∧
    simulate_network zeroOps defaultEngine emptyAdj singleSourceNodes [] [] 1 100
        (1 / 100) =
      some (runSim zeroOps defaultEngine emptyAdj singleSourceNodes [] [] 1 100
        (1 / 100)) :=
  ⟨(C6_amended_no_validation zeroOps defaultEngine emptyAdj [] [] 1 100 (1 / 100)).1
      rfl (by norm_num),
    (C6_amended_no_validation zeroOps defaultEngine emptyAdj singleSourceNodes [] 1 100
      (1 / 100)).2 (by decide)⟩

/-- C7: on a well-formed topology the solver returns normally, and every
non-source node of degree zero keeps its initial pressure estimate of
0.8 times the source pressure, unchanged by any iteration. -/
theorem C7_zero_degree (ops : RealOps) (eng : PhysicsEngine) (adj : Int → List Int)
    (nodes : List GasNode) (pipes : List GasPipe) (leaks : List (Int × ℚ)) (mult : ℚ)
    (maxIter : Nat) (threshold : ℚ) (hwf : WellFormed adj nodes pipes) :
    (simulate_network ops eng adj nodes pipes leaks mult maxIter threshold =
      some (runSim ops eng adj nodes pipes leaks mult maxIter threshold)) ∧
    (∀ n ∈ nodes, n.node_type ≠ "source" → adj n.id = [] →
      dictGet (runSim ops eng adj nodes pipes leaks mult maxIter
        threshold).node_pressures n.id = eng.source_pressure * (8 / 10)) := by
  constructor
  · unfold simulate_network
    rw [if_neg (fun hcon => hwf.1 hcon.1)]
  · intro n hn hsrc hdeg
    exact runSim_zero_degree_pressure ops eng adj nodes pipes leaks mult maxIter threshold
      hwf.2.1 n hn hsrc hdeg

/-- C7 witness: a two-node topology with no pipes; the isolated consumer
keeps 320 kPa. -/
theorem C7_witness :
    dictGet (runSim zeroOps defaultEngine emptyAdj [twoNodeSource, twoNodeConsumer 5] []
      [] 1 100 (1 / 100)).node_pressures (twoNodeConsumer 5).id =
      defaultEngine.source_pressure * (8 / 10) :=
  (C7_zero_degree zeroOps defaultEngine emptyAdj [twoNodeSource, twoNodeConsumer 5] [] []
      1 100 (1 / 100)
      (by refine ⟨by decide, by decide, ?_, by decide⟩
          intro p hp
          exact absurd hp (List.not_mem_nil p))).2
    (twoNodeConsumer 5) (by decide) (by decide) rfl

/-- C8: whenever candidate identification finds nothing, analyze_network
returns an empty detected-leak list and exactly the single
no-significant-leaks recommendation. -/
theorem C8_no_candidate_result (ops : RealOps) (det : LeakDetector)
    (adj : Int → List Int) (nodes : List GasNode) (pipes : List GasPipe)
    (simulation_state : SimulationState) (baseline_state : Option SimulationState)
    (h : analysisCandidates ops det adj nodes simulation_state baseline_state = []) :
    (analyze_network ops det adj nodes pipes simulation_state
        baseline_state).detected_leaks = [] ∧
    (analyze_network ops det adj nodes pipes simulation_state
        baseline_state).recommendations = [Recommendation.noSignificantLeaks] :=
  analyze_network_no_candidates ops det adj nodes pipes simulation_state baseline_state h

attribute [local semireducible] Rat.add Rat.mul Rat.sub Rat.inv in
set_option maxRecDepth 10000 in
/-- C8 witness: a healthy two-node state produces no candidates, an
empty leak list, and the single no-leak message. -/
theorem C8_witness :
    (analyze_network zeroOps defaultDetector twoNodeAdj
        [twoNodeSource, twoNodeConsumer 5] [twoNodePipe] healthyState
        none).detected_leaks = [] ∧
    (analyze_network zeroOps defaultDetector twoNodeAdj
        [twoNodeSource, twoNodeConsumer 5] [twoNodePipe] healthyState
        none).recommendations = [Recommendation.noSignificantLeaks] :=
  C8_no_candidate_result zeroOps defaultDetector twoNodeAdj
    [twoNodeSource, twoNodeConsumer 5] [twoNodePipe] healthyState none (by decide)

/-- C9 counterexample: on the path 0 - 1 - 2 with candidates 0 and 2
(and 1 healthy), both candidates lie in the same connected component of
the graph, yet the clustering puts them in the two distinct clusters
[[0], [2]]: the traversal enqueues neighbors only from candidate nodes,
so clusters do not span healthy intermediate nodes. -/
theorem C9_counterexample :
    inSameComponent pathAdj 3 0 2 = true ∧
    cluster_anomalies pathAdj [pathCand0, pathCand2] [] = [[0], [2]] ∧
    ¬ ∃ cl ∈ cluster_anomalies pathAdj [pathCand0, pathCand2] [],
        (0 : Int) ∈ cl ∧ (2 : Int) ∈ cl := by
  refine ⟨by decide, by decide, ?_⟩
  rw [show cluster_anomalies pathAdj [pathCand0, pathCand2] [] = [[0], [2]] by decide]
  decide

/-- C9 amended: the clusters form a partition of the candidate ids:
their concatenation is duplicate free and equals the candidate id set,
every cluster is nonempty, and every candidate id lies in exactly one
cluster.  The original conjunct that candidates in one connected
component share a cluster is refuted: the traversal only expands through
candidate nodes, so clusters are components of the candidate-induced
subgraph. -/
theorem C9_amended_cluster_partition (adj : Int → List Int)
    (candidates : List AnomalyScore) (node_dict : List (Int × GasNode)) :
    ((cluster_anomalies adj candidates node_dict).flatten.Nodup) ∧
    (∀ i, i ∈ (cluster_anomalies adj candidates node_dict).flatten ↔
      i ∈ candidates.map (fun c => c.node_id)) ∧
    (∀ cl ∈ cluster_anomalies adj candidates node_dict, cl ≠ []) ∧
    (∀ i ∈ candidates.map (fun c => c.node_id),
      (cluster_anomalies adj candidates node_dict).countP
        (fun cl => decide (i ∈ cl)) = 1) :=
  cluster_anomalies_partition adj candidates node_dict

/-- C9 witness: on the path instance, candidate id 0 lies in exactly one
cluster and the flattened clusters are duplicate free. -/
theorem C9_witness :
    (cluster_anomalies pathAdj [pathCand0, pathCand2] []).countP
        (fun cl => decide ((0 : Int) ∈ cl)) = 1 ∧
    (cluster_anomalies pathAdj [pathCand0, pathCand2] []).flatten.Nodup :=
  ⟨(C9_amended_cluster_partition pathAdj [pathCand0, pathCand2] []).2.2.2 0 (by decide),
    (C9_amended_cluster_partition pathAdj [pathCand0, pathCand2] []).1⟩

/-- C10: at zero flow rate with positive length and diameter and
nonnegative inlet pressure, the calculator returns pressure drop 0,
velocity 0, Reynolds number 1 (the floor), and laminar friction factor
64. -/
theorem C10_zero_flow (ops : RealOps) (length diameter roughness inlet_pressure : ℚ)
    (hL : 0 < length) (hd : 0 < diameter) (hin : 0 ≤ inlet_pressure) :
    calculate_pressure_drop ops 0 length diameter roughness inlet_pressure =
      (0, 0, 1, 64) :=
  calculate_pressure_drop_zero_flow ops length diameter roughness inlet_pressure hin

/-- C10 witness: the zero-flow evaluation at the scenario pipe. -/
theorem C10_witness :
    calculate_pressure_drop zeroOps 0 500 (3 / 20) (9 / 200000) 400 = (0, 0, 1, 64) :=
  C10_zero_flow zeroOps 500 (3 / 20) (9 / 200000) 400 (by norm_num) (by norm_num)
    (by norm_num)

end GasSim
